import Mathlib

/-!
# Attach to a container: `criService.Attach` and `criService.attachContainer`

Shallow embedding of `vendor/github.com/containerd/cri/pkg/server/container_attach.go`.

Every call that leaves the file (container store, status, `StartContainer`, `Container.Task`,
`task.CloseIO`, `task.Resize`, the logger, `streamServer.GetAttach`, `cntr.IO.Attach`,
`handleResizing`) appends one `Event` to a chronological history.  The answer of an external
call is given by an oracle of the environment that may look at the whole history so far, so
the same call can answer differently at different times.

The two goroutines started by `attachContainer` (the IO binding of `eg.Go` and the relay of
`handleResizing`) are interleaved with the statements of `attachContainer` by a `Schedule`.
-/

namespace K3c

/-! ## Data model -/

/-- Go `error` values as built by `github.com/pkg/errors`: a plain message
(`errors.Errorf`, or an error coming from a collaborator) or a wrapped cause (`errors.Wrap`). -/
inductive Error where
  | base (msg : String)
  | wrap (cause : Error) (msg : String)
  deriving DecidableEq, Repr

/-- The method `err.Error()`: a wrapped error prints its own message, a colon, and the cause. -/
def Error.message : Error → String
  | .base msg => msg
  | .wrap cause msg => msg ++ ": " ++ cause.message

/-- The function `errors.Cause(err)`: the innermost error. -/
def Error.rootCause : Error → Error
  | .base msg => .base msg
  | .wrap cause _ => cause.rootCause

/-- The type `runtime.ContainerState` is an `int32` enumeration; every integer is a possible value. -/
abbrev ContainerState := Int

def ContainerState_CONTAINER_CREATED : ContainerState := 0
def ContainerState_CONTAINER_RUNNING : ContainerState := 1
def ContainerState_CONTAINER_EXITED : ContainerState := 2
def ContainerState_CONTAINER_UNKNOWN : ContainerState := 3

/-- A caller stream handle (`io.Reader` / `io.WriteCloser`): only its identity matters here. -/
abbrev Stream := Nat

/-- A `containerd.Task` handle. -/
abbrev Task := Nat

/-- The parts of a container store record that `container_attach.go` reads as plain data:
`cntr.ID` and `cntr.Config.StdinOnce`.  `cntr.Status`, `cntr.Container` and `cntr.IO` are
live handles and are reached through the oracles of `Env`. -/
structure Container where
  ID : String
  StdinOnce : Bool
  deriving DecidableEq, Repr

/-- The type `remotecommand.TerminalSize`: two `uint16` fields. -/
structure TerminalSize where
  Width : Nat
  Height : Nat
  deriving DecidableEq, Repr

/-- The message `runtime.AttachRequest`. -/
structure AttachRequest where
  ContainerId : String
  Stdin : Bool
  Tty : Bool
  Stdout : Bool
  Stderr : Bool
  deriving DecidableEq, Repr

/-- The message `runtime.AttachResponse`. -/
structure AttachResponse where
  Url : String
  deriving DecidableEq, Repr

deriving instance DecidableEq for Except

/-- A fallible result `(value, err)` of a collaborator. -/
abbrev Res (α : Type) := Except Error α

/-- The conversion `uint32(x)`. -/
def uint32 (x : Nat) : Nat := x % 2 ^ 32

/-- The two places where `cntr.Container.Task(ctx, nil)` is called: inside the `CloseStdin`
closure (line 65) and before `handleResizing` (line 88). -/
inductive Site where
  | closeStdin
  | resize
  deriving DecidableEq, Repr

/-- One call leaving `container_attach.go`, with the answer it got. -/
inductive Event where
  /-- Call of `c.containerStore.Get(id)` -/
  | storeGet (id : String) (res : Res Container)
  /-- Call of `cntr.Status.Get().State()` -/
  | statusState (cid : String) (state : ContainerState)
  /-- Launch of the IO binding by `eg.Go`, lines 74-77, with the data of `opts` -/
  | goAttach (cid : String) (stdin stdout stderr : Stream) (tty stdinOnce : Bool)
  /-- Call of `c.StartContainer` with the given `ContainerId` -/
  | startContainer (containerId : String) (res : Option Error)
  /-- Call of `cntr.Container.Task(ctx, nil)` -/
  | containerTask (cid : String) (site : Site) (res : Res Task)
  /-- Call of `task.CloseIO(ctx, containerd.WithStdinCloser)` -/
  | closeStdinCall (task : Task) (res : Option Error)
  /-- Call of `task.Resize(ctx, w, h)` -/
  | resizeCall (task : Task) (w h : Nat) (res : Option Error)
  /-- Call of `log.G(ctx).WithError(err).Errorf(...)` -/
  | logError (err : Error) (msg : String)
  /-- Call of `handleResizing(resize, ...)`, which starts the relay -/
  | handleResizing (cid : String)
  /-- Call of `c.streamServer.GetAttach(r)` -/
  | getAttach (r : AttachRequest) (res : Res AttachResponse)
  deriving DecidableEq, Repr

/-- The chronological record of the calls made so far. -/
abbrev History := List Event

/-- The collaborators of `container_attach.go`.  Each oracle receives the history before the
call.  `criContainerStateToString` (helpers of the same package) and the `%q` verb of `fmt`
are not part of the file and are taken as parameters. -/
structure Env where
  containerStoreGet : String → History → Res Container
  statusState : Container → History → ContainerState
  startContainer : String → History → Option Error
  containerTask : Container → History → Res Task
  taskCloseStdin : Task → History → Option Error
  taskResize : Task → Nat → Nat → History → Option Error
  streamServerGetAttach : AttachRequest → History → Res AttachResponse
  criContainerStateToString : ContainerState → String
  quote : String → String

/-- A call with effects: from the history before to the value and the history after. -/
abbrev M (α : Type) := History → α × History

/-- The descriptor `cio.AttachOptions`. -/
structure AttachOptions where
  Stdin : Stream
  Stdout : Stream
  Stderr : Stream
  Tty : Bool
  StdinOnce : Bool
  CloseStdin : M (Option Error)

/-- What `attachContainer` hands back: the returned `error` and the history at the return. -/
structure Outcome where
  err : Option Error
  log : History

/-! ## The closures of `attachContainer` -/

/-- The `CloseStdin` closure, lines 64-70. -/
def closeStdin (env : Env) (cntr : Container) : M (Option Error) := fun h =>
  match env.containerTask cntr h with
  | .error err =>
    (some (.wrap err "failed to load task"), h ++ [.containerTask cntr.ID .closeStdin (.error err)])
  | .ok task =>
    let h1 := h ++ [.containerTask cntr.ID .closeStdin (.ok task)]
    let res := env.taskCloseStdin task h1
    (res, h1 ++ [.closeStdinCall task res])

/-- The resize closure, lines 92-96; `id` is the variable reassigned at line 51. -/
def resizeFunc (env : Env) (id : String) (task : Task) (size : TerminalSize) : M Unit := fun h =>
  let res := env.taskResize task (uint32 size.Width) (uint32 size.Height) h
  let h1 := h ++ [.resizeCall task (uint32 size.Width) (uint32 size.Height) res]
  match res with
  | some err => ((), h1 ++ [.logError err ("Failed to resize task " ++ env.quote id ++ " console")])
  | none => ((), h1)

/-! ## The two goroutines -/

/-- The IO layer `cntr.IO.Attach(opts)` lives in another package.  The only code of this file it
can run is `opts.CloseStdin`; it has no result, so what `CloseStdin` answers stays with it.
`ioLayer opts n` is the IO layer calling `opts.CloseStdin` `n` times in a row. -/
def ioLayer (opts : AttachOptions) : Nat → History → History
  | 0, h => h
  | n + 1, h => ioLayer opts n (opts.CloseStdin h).2

/-- The value returned by the function given to `eg.Go`, line 76: `return nil`. -/
def ioBindingOutcome : Option Error := none

/-- The method `errgroup.Group.Wait`: the first non-nil error among the outcomes of the units. -/
def egWait (outcomes : List (Option Error)) : Option Error :=
  outcomes.findSome? id

/-- Modelled from the spec: `handleResizing` is defined elsewhere in package `server`, outside
`container_attach.go`.  Section 4.3: the relay consumes the ordered event sequence until closed
and calls the callback for each event.  This is the relay run until the event source is
closed. -/
def handleResizing (resize : List TerminalSize) (resizeFunc : TerminalSize → M Unit) : M Unit :=
  fun h => ((), resize.foldl (fun acc size => (resizeFunc size acc).2) h)

/-- One step of one of the two goroutines. -/
inductive Tick where
  /-- The IO layer calls `opts.CloseStdin` -/
  | io
  /-- The relay receives the next event of the resize channel, if there is one -/
  | relay
  deriving DecidableEq, Repr

/-- The two goroutines interleaved as the ticks say; `pending` is what is still to come on the
resize channel. -/
def runTicks (opts : AttachOptions) (resizeFunc : TerminalSize → M Unit) :
    List Tick → List TerminalSize → History → History
  | [], _, h => h
  | .io :: ticks, pending, h => runTicks opts resizeFunc ticks pending (opts.CloseStdin h).2
  | .relay :: ticks, [], h => runTicks opts resizeFunc ticks [] h
  | .relay :: ticks, size :: pending, h =>
    runTicks opts resizeFunc ticks pending (handleResizing [size] resizeFunc h).2

/-- How the goroutines run relative to the statements of `attachContainer`. -/
structure Schedule where
  /-- Number of `CloseStdin` calls of the IO layer between `eg.Go` (line 74) and line 79 -/
  beforeStart : Nat
  /-- Number of `CloseStdin` calls of the IO layer between line 86 and line 88 -/
  beforeTask : Nat
  /-- Number of `CloseStdin` calls of the IO layer between line 91 and line 92 -/
  beforeRelay : Nat
  /-- The steps of both goroutines between line 96 and the return of `eg.Wait()` -/
  untilJoin : List Tick

/-! ## The two entry points -/

/-- The function `criService.Attach`, lines 32-42. -/
def Attach (env : Env) (r : AttachRequest) : Res AttachResponse × History :=
  let got := env.containerStoreGet r.ContainerId []
  let h0 : History := [.storeGet r.ContainerId got]
  match got with
  | .error err => (.error (.wrap err "failed to find container in store"), h0)
  | .ok cntr =>
    let state := env.statusState cntr h0
    let h1 := h0 ++ [.statusState cntr.ID state]
    if state ≠ ContainerState_CONTAINER_RUNNING ∧ state ≠ ContainerState_CONTAINER_CREATED then
      (.error (.base ("container is in " ++ env.criContainerStateToString state ++ " state")), h1)
    else
      let res := env.streamServerGetAttach r h1
      (res, h1 ++ [.getAttach r res])

/-- The function `criService.attachContainer`, lines 44-99.  The resize channel is the list of
the events it will deliver. -/
def attachContainer (env : Env) (sched : Schedule) (id : String) (stdin : Stream)
    (stdout stderr : Stream) (tty : Bool) (resize : List TerminalSize) : Outcome :=
  let got := env.containerStoreGet id []
  let h0 : History := [.storeGet id got]
  match got with
  | .error err =>
    ⟨some (.wrap err ("failed to find container " ++ env.quote id ++ " in store")), h0⟩
  | .ok cntr =>
    let id := cntr.ID
    let state := env.statusState cntr h0
    let h1 := h0 ++ [.statusState cntr.ID state]
    if state ≠ ContainerState_CONTAINER_RUNNING ∧ state ≠ ContainerState_CONTAINER_CREATED then
      ⟨some (.base ("container is in " ++ env.criContainerStateToString state ++ " state")), h1⟩
    else
      let opts : AttachOptions :=
        { Stdin := stdin, Stdout := stdout, Stderr := stderr, Tty := tty,
          StdinOnce := cntr.StdinOnce, CloseStdin := closeStdin env cntr }
      let h2 := h1 ++ [.goAttach cntr.ID opts.Stdin opts.Stdout opts.Stderr opts.Tty opts.StdinOnce]
      let h3 := ioLayer opts sched.beforeStart h2
      let started : Option Error × History :=
        if state = ContainerState_CONTAINER_CREATED then
          let res := env.startContainer cntr.ID h3
          (res, h3 ++ [.startContainer cntr.ID res])
        else (none, h3)
      match started with
      | (some err, h4) => ⟨some err, h4⟩
      | (none, h4) =>
        let h5 := ioLayer opts sched.beforeTask h4
        match env.containerTask cntr h5 with
        | .error err =>
          ⟨some (.wrap err "failed to load task"), h5 ++ [.containerTask cntr.ID .resize (.error err)]⟩
        | .ok task =>
          let h6 := h5 ++ [.containerTask cntr.ID .resize (.ok task)]
          let h7 := ioLayer opts sched.beforeRelay h6
          let h8 := h7 ++ [.handleResizing id]
          let h9 := runTicks opts (resizeFunc env id task) sched.untilJoin resize h8
          ⟨egWait [ioBindingOutcome], h9⟩

/-! ## Reading a history -/

/-- A `StartContainer` call. -/
def Event.isStart : Event → Bool
  | .startContainer _ _ => true
  | _ => false

/-- The launch of the IO binding. -/
def Event.isGoAttach : Event → Bool
  | .goAttach _ _ _ _ _ _ => true
  | _ => false

/-- A `Container.Task` call, at either place. -/
def Event.isTaskLookup : Event → Bool
  | .containerTask _ _ _ => true
  | _ => false

/-- The `Container.Task` call of line 88. -/
def Event.isResizeLookup : Event → Bool
  | .containerTask _ .resize _ => true
  | _ => false

/-- A `Container.Task` call made by the `CloseStdin` closure, line 65. -/
def Event.isCloseStdinLookup : Event → Bool
  | .containerTask _ .closeStdin _ => true
  | _ => false

/-- A `task.CloseIO` call. -/
def Event.isCloseStdinCall : Event → Bool
  | .closeStdinCall _ _ => true
  | _ => false

/-- A `task.Resize` call. -/
def Event.isResizeCall : Event → Bool
  | .resizeCall _ _ _ _ => true
  | _ => false

/-- The start of the resize relay. -/
def Event.isRelayStart : Event → Bool
  | .handleResizing _ => true
  | _ => false

/-- A line written to the log. -/
def Event.isLogError : Event → Bool
  | .logError _ _ => true
  | _ => false

/-- A `GetAttach` call. -/
def Event.isGetAttach : Event → Bool
  | .getAttach _ _ => true
  | _ => false

/-- What the IO layer can add to a history through `CloseStdin`. -/
def Event.fromCloseStdin : Event → Bool
  | .containerTask _ .closeStdin _ => true
  | .closeStdinCall _ _ => true
  | _ => false

/-- What the two goroutines can add to a history. -/
def Event.fromGoroutine : Event → Bool
  | .containerTask _ .closeStdin _ => true
  | .closeStdinCall _ _ => true
  | .resizeCall _ _ _ _ => true
  | .logError _ _ => true
  | _ => false

/-- The `(width, height)` pairs of the `task.Resize` calls of a history, in order. -/
def resizeArgs : History → List (Nat × Nat)
  | [] => []
  | .resizeCall _ w h _ :: rest => (w, h) :: resizeArgs rest
  | _ :: rest => resizeArgs rest

/-- The history made by the statements up to and including `eg.Go`, when lookup finds `cntr`
and the state read is `state`. -/
def launched (id : String) (cntr : Container) (state : ContainerState) (stdin : Stream)
    (stdout stderr : Stream) (tty : Bool) : History :=
  [.storeGet id (.ok cntr), .statusState cntr.ID state,
   .goAttach cntr.ID stdin stdout stderr tty cntr.StdinOnce]

/-- A read of the state snapshot. -/
def Event.isStatusRead : Event → Bool
  | .statusState _ _ => true
  | _ => false

/-- A `task.Resize` call that returned an error. -/
def Event.isFailedResize : Event → Bool
  | .resizeCall _ _ _ (some _) => true
  | _ => false

/-- A `StartContainer` call that returned an error. -/
def Event.isFailedStart : Event → Bool
  | .startContainer _ (some _) => true
  | _ => false

/-- A `Container.Task` call of line 88 that returned an error. -/
def Event.isFailedResizeLookup : Event → Bool
  | .containerTask _ .resize (.error _) => true
  | _ => false

/-- The number of `CloseStdin` calls the IO layer makes before the join under a schedule. -/
def Schedule.closeStdinCalls (sched : Schedule) : Nat :=
  sched.beforeStart + sched.beforeTask + sched.beforeRelay + sched.untilJoin.count .io

/-- The call returned at the state gate (line 39 or line 55): the lookup found a record, the
state was read, and nothing was done after that. -/
def stoppedAtGate : History → Bool
  | [.storeGet _ (.ok _), .statusState _ _] => true
  | _ => false

/-! ## A concrete environment -/

/-- The names of `runtime.ContainerState_name`; a value outside the table has the empty name. -/
def containerStateName (s : ContainerState) : String :=
  if s = 0 then "CONTAINER_CREATED"
  else if s = 1 then "CONTAINER_RUNNING"
  else if s = 2 then "CONTAINER_EXITED"
  else if s = 3 then "CONTAINER_UNKNOWN"
  else ""

/-- The verb `%q` on an identifier without characters to escape. -/
def plainQuote (s : String) : String :=
  String.singleton (Char.ofNat 34) ++ s ++ String.singleton (Char.ofNat 34)

/-- A store with seven containers:
`c1` created; `c2` exited; `c3` running with `StdinOnce`, its task gone once the relay has
started; `c4a`, a short identifier of the created container `c4abcdef`; `c5` created, its
start fails; `c6` running, its task cannot be loaded; `c7` in state 42. -/
def sampleStore (id : String) : Option Container :=
  if id = "c1" then some ⟨"c1", false⟩
  else if id = "c2" then some ⟨"c2", false⟩
  else if id = "c3" then some ⟨"c3", true⟩
  else if id = "c4a" then some ⟨"c4abcdef", false⟩
  else if id = "c5" then some ⟨"c5", false⟩
  else if id = "c6" then some ⟨"c6", false⟩
  else if id = "c7" then some ⟨"c7", false⟩
  else none

/-- The environment around `sampleStore`.  The second `task.Resize` call of a session fails. -/
def sampleEnv : Env where
  containerStoreGet := fun id _ =>
    match sampleStore id with
    | some cntr => .ok cntr
    | none => .error (.base "not found")
  statusState := fun cntr _ =>
    if cntr.ID = "c1" ∨ cntr.ID = "c4abcdef" ∨ cntr.ID = "c5" then ContainerState_CONTAINER_CREATED
    else if cntr.ID = "c3" ∨ cntr.ID = "c6" then ContainerState_CONTAINER_RUNNING
    else if cntr.ID = "c2" then ContainerState_CONTAINER_EXITED
    else if cntr.ID = "c7" then 42
    else ContainerState_CONTAINER_UNKNOWN
  startContainer := fun containerId _ =>
    if containerId = "c5" then some (.base "failed to start containerd task") else none
  containerTask := fun cntr h =>
    if cntr.ID = "c6" then .error (.base "no running task found")
    else if cntr.ID = "c3" ∧ h.any Event.isRelayStart then .error (.base "no running task found")
    else .ok (7 + h.length)
  taskCloseStdin := fun _ _ => none
  taskResize := fun _ _ _ h =>
    if (resizeArgs h).length = 1 then some (.base "resize failed") else none
  streamServerGetAttach := fun r _ => .ok ⟨"http://127.0.0.1:10010/attach/" ++ r.ContainerId⟩
  criContainerStateToString := containerStateName
  quote := plainQuote

/-- A schedule in which the goroutines do nothing before the join. -/
def idle : Schedule := ⟨0, 0, 0, []⟩

/-- A schedule in which the IO layer closes stdin once, after the relay has started. -/
def closeAfterRelay : Schedule := ⟨0, 0, 0, [.io]⟩

/-- A schedule in which the IO layer closes stdin once before the start, and the relay and the
IO layer alternate after line 96. -/
def busy : Schedule := ⟨1, 0, 0, [.relay, .io, .relay, .relay, .relay]⟩

/-! ## What the goroutines add to a history -/

theorem fromCloseStdin_fromGoroutine (e : Event) (h : e.fromCloseStdin = true) :
    e.fromGoroutine = true := by
  cases e with
  | containerTask cid site res => cases site <;> simp_all [Event.fromCloseStdin, Event.fromGoroutine]
  | _ => simp_all [Event.fromCloseStdin, Event.fromGoroutine]

theorem closeStdin_log (env : Env) (cntr : Container) (h : History) :
    ∃ t : History, (closeStdin env cntr h).2 = h ++ t ∧ (∀ e ∈ t, e.fromCloseStdin = true) ∧
      t.countP Event.isCloseStdinLookup = 1 := by
  unfold closeStdin
  cases hres : env.containerTask cntr h with
  | error err =>
    exact ⟨[.containerTask cntr.ID .closeStdin (.error err)], by simp,
      by simp [Event.fromCloseStdin], by simp [Event.isCloseStdinLookup]⟩
  | ok task =>
    refine ⟨[.containerTask cntr.ID .closeStdin (.ok task), .closeStdinCall task
      (env.taskCloseStdin task (h ++ [.containerTask cntr.ID .closeStdin (.ok task)]))], by simp,
      by simp [Event.fromCloseStdin], by simp [Event.isCloseStdinLookup, List.countP_cons]⟩

theorem ioLayer_log (env : Env) (cntr : Container) (opts : AttachOptions)
    (hcs : opts.CloseStdin = closeStdin env cntr) (n : Nat) (h : History) :
    ∃ t : History, ioLayer opts n h = h ++ t ∧ (∀ e ∈ t, e.fromCloseStdin = true) ∧
      t.countP Event.isCloseStdinLookup = n := by
  induction n generalizing h with
  | zero => exact ⟨[], by simp [ioLayer], by simp, by simp⟩
  | succ n ih =>
    obtain ⟨t1, h1, hio1, hc1⟩ := closeStdin_log env cntr h
    obtain ⟨t2, h2, hio2, hc2⟩ := ih (h ++ t1)
    refine ⟨t1 ++ t2, ?_, ?_, ?_⟩
    · simp only [ioLayer, hcs, h1, h2, List.append_assoc]
    · intro e he
      rcases List.mem_append.mp he with he | he
      · exact hio1 e he
      · exact hio2 e he
    · rw [List.countP_append, hc1, hc2, Nat.add_comm]

theorem resizeFunc_log (env : Env) (id : String) (task : Task) (size : TerminalSize)
    (h : History) :
    ∃ t : History, (resizeFunc env id task size h).2 = h ++ t ∧
      (∀ e ∈ t, e.fromGoroutine = true) ∧
      resizeArgs t = [(uint32 size.Width, uint32 size.Height)] ∧
      t.countP Event.isCloseStdinLookup = 0 ∧
      t.countP Event.isLogError = t.countP Event.isFailedResize := by
  unfold resizeFunc
  cases hres : env.taskResize task (uint32 size.Width) (uint32 size.Height) h with
  | none =>
    exact ⟨[.resizeCall task (uint32 size.Width) (uint32 size.Height) none], by simp,
      by simp [Event.fromGoroutine], by simp [resizeArgs], by simp [Event.isCloseStdinLookup],
      by simp [Event.isLogError, Event.isFailedResize]⟩
  | some err =>
    exact ⟨[.resizeCall task (uint32 size.Width) (uint32 size.Height) (some err),
      .logError err ("Failed to resize task " ++ env.quote id ++ " console")], by simp,
      by simp [Event.fromGoroutine], by simp [resizeArgs], by simp [Event.isCloseStdinLookup],
      by simp [Event.isLogError, Event.isFailedResize, List.countP_cons]⟩

theorem resizeArgs_append (a b : History) : resizeArgs (a ++ b) = resizeArgs a ++ resizeArgs b := by
  induction a with
  | nil => rfl
  | cons e a ih => cases e <;> simp [resizeArgs, ih]

theorem resizeArgs_nil_of (t : History) (ht : ∀ e ∈ t, e.isResizeCall = false) :
    resizeArgs t = [] := by
  induction t with
  | nil => rfl
  | cons e t ih =>
    have he := ht e (List.mem_cons_self e t)
    have ih1 := ih (fun x hx => ht x (List.mem_cons_of_mem e hx))
    cases e <;> simp_all [resizeArgs, Event.isResizeCall]

theorem resizeArgs_closeStdin (t : History) (ht : ∀ e ∈ t, e.fromCloseStdin = true) :
    resizeArgs t = [] :=
  resizeArgs_nil_of t (fun e he => by
    have := ht e he
    cases e <;> simp_all [Event.fromCloseStdin, Event.isResizeCall])

theorem closeStdin_no_logs (t : History) (ht : ∀ e ∈ t, e.fromCloseStdin = true) :
    t.countP Event.isLogError = 0 ∧ t.countP Event.isFailedResize = 0 := by
  constructor
  · rw [List.countP_eq_zero]
    intro e he
    have := ht e he
    cases e <;> simp_all [Event.fromCloseStdin, Event.isLogError]
  · rw [List.countP_eq_zero]
    intro e he
    have := ht e he
    cases e <;> simp_all [Event.fromCloseStdin, Event.isFailedResize]

theorem runTicks_log (env : Env) (cntr : Container) (opts : AttachOptions)
    (hcs : opts.CloseStdin = closeStdin env cntr) (id : String) (task : Task)
    (ticks : List Tick) (pending : List TerminalSize) (h : History) :
    ∃ t : History, runTicks opts (resizeFunc env id task) ticks pending h = h ++ t ∧
      (∀ e ∈ t, e.fromGoroutine = true) ∧
      t.countP Event.isCloseStdinLookup = ticks.count .io ∧
      resizeArgs t = (pending.take (ticks.count .relay)).map
        (fun size => (uint32 size.Width, uint32 size.Height)) ∧
      t.countP Event.isLogError = t.countP Event.isFailedResize := by
  induction ticks generalizing pending h with
  | nil => exact ⟨[], by simp [runTicks], by simp, by simp, by simp [resizeArgs], rfl⟩
  | cons tick ticks ih =>
    cases tick with
    | io =>
      obtain ⟨t1, h1, hio1, hc1⟩ := closeStdin_log env cntr h
      obtain ⟨t2, h2, hio2, hc2, ha2, hl2⟩ := ih pending (h ++ t1)
      refine ⟨t1 ++ t2, ?_, ?_, ?_, ?_, ?_⟩
      · simp only [runTicks, hcs, h1, h2, List.append_assoc]
      · intro e he
        rcases List.mem_append.mp he with he | he
        · exact fromCloseStdin_fromGoroutine e (hio1 e he)
        · exact hio2 e he
      · rw [List.countP_append, hc1, hc2, List.count_cons_self, Nat.add_comm]
      · rw [resizeArgs_append, resizeArgs_closeStdin t1 hio1, ha2]
        simp
      · rw [List.countP_append, List.countP_append, (closeStdin_no_logs t1 hio1).1,
          (closeStdin_no_logs t1 hio1).2, hl2]
    | relay =>
      cases pending with
      | nil =>
        obtain ⟨t2, h2, hio2, hc2, ha2, hl2⟩ := ih [] h
        exact ⟨t2, by simp only [runTicks, h2], hio2, by simp [hc2], by simpa using ha2, hl2⟩
      | cons size pending =>
        obtain ⟨t1, h1, hio1, ha1, hz, hl1⟩ := resizeFunc_log env id task size h
        obtain ⟨t2, h2, hio2, hc2, ha2, hl2⟩ := ih pending (h ++ t1)
        refine ⟨t1 ++ t2, ?_, ?_, ?_, ?_, ?_⟩
        · simp only [runTicks, handleResizing, List.foldl_cons, List.foldl_nil, h1, h2,
            List.append_assoc]
        · intro e he
          rcases List.mem_append.mp he with he | he
          · exact hio1 e he
          · exact hio2 e he
        · rw [List.countP_append, hz, hc2]
          simp
        · rw [resizeArgs_append, ha1, ha2]
          simp
        · rw [List.countP_append, List.countP_append, hl1, hl2]

/-! ## The paths of `attachContainer` past the state gate -/

/-- Past the gate `attachContainer` ends in one of three ways: at line 84 with the error of
`StartContainer`, at line 90 with the wrapped error of `Container.Task`, or at line 98. -/
theorem attachContainer_shape (env : Env) (sched : Schedule) (id : String) (stdin : Stream)
    (stdout stderr : Stream) (tty : Bool) (resize : List TerminalSize) (cntr : Container)
    (state : ContainerState)
    (hget : env.containerStoreGet id [] = .ok cntr)
    (hstate : env.statusState cntr [.storeGet id (.ok cntr)] = state)
    (hgate : state = ContainerState_CONTAINER_RUNNING ∨ state = ContainerState_CONTAINER_CREATED) :
    ∃ t1 : History, (∀ e ∈ t1, e.fromCloseStdin = true) ∧
      t1.countP Event.isCloseStdinLookup = sched.beforeStart ∧
      ((state = ContainerState_CONTAINER_CREATED ∧ ∃ err,
          env.startContainer cntr.ID (launched id cntr state stdin stdout stderr tty ++ t1)
            = some err ∧
          attachContainer env sched id stdin stdout stderr tty resize =
            ⟨some err, launched id cntr state stdin stdout stderr tty ++ t1 ++
              [.startContainer cntr.ID (some err)]⟩)
       ∨ ∃ mid t2 : History,
          ((state = ContainerState_CONTAINER_CREATED ∧
              env.startContainer cntr.ID (launched id cntr state stdin stdout stderr tty ++ t1)
                = none ∧
              mid = [.startContainer cntr.ID none])
            ∨ (state = ContainerState_CONTAINER_RUNNING ∧ mid = [])) ∧
          (∀ e ∈ t2, e.fromCloseStdin = true) ∧
          t2.countP Event.isCloseStdinLookup = sched.beforeTask ∧
          ((∃ err,
              env.containerTask cntr
                (launched id cntr state stdin stdout stderr tty ++ t1 ++ mid ++ t2) = .error err ∧
              attachContainer env sched id stdin stdout stderr tty resize =
                ⟨some (.wrap err "failed to load task"),
                  launched id cntr state stdin stdout stderr tty ++ t1 ++ mid ++ t2 ++
                    [.containerTask cntr.ID .resize (.error err)]⟩)
           ∨ ∃ (task : Task) (t3 t4 : History),
              env.containerTask cntr
                (launched id cntr state stdin stdout stderr tty ++ t1 ++ mid ++ t2) = .ok task ∧
              (∀ e ∈ t3, e.fromCloseStdin = true) ∧
              t3.countP Event.isCloseStdinLookup = sched.beforeRelay ∧
              (∀ e ∈ t4, e.fromGoroutine = true) ∧
              t4.countP Event.isCloseStdinLookup = sched.untilJoin.count .io ∧
              resizeArgs t4 = (resize.take (sched.untilJoin.count .relay)).map
                (fun size => (uint32 size.Width, uint32 size.Height)) ∧
              t4.countP Event.isLogError = t4.countP Event.isFailedResize ∧
              attachContainer env sched id stdin stdout stderr tty resize =
                ⟨none,
                  launched id cntr state stdin stdout stderr tty ++ t1 ++ mid ++ t2 ++
                    [.containerTask cntr.ID .resize (.ok task)] ++ t3 ++
                    [.handleResizing cntr.ID] ++ t4⟩)) := by
  have hnot : ¬ (state ≠ ContainerState_CONTAINER_RUNNING ∧
      state ≠ ContainerState_CONTAINER_CREATED) := by
    rcases hgate with h | h <;> simp [h]
  have hL : ([Event.storeGet id (.ok cntr)] ++ [Event.statusState cntr.ID state] ++
      [Event.goAttach cntr.ID stdin stdout stderr tty cntr.StdinOnce] : History) =
      launched id cntr state stdin stdout stderr tty := rfl
  simp only [attachContainer, hget, hstate, if_neg hnot, hL]
  generalize hopts : (⟨stdin, stdout, stderr, tty, cntr.StdinOnce, closeStdin env cntr⟩ :
    AttachOptions) = opts
  have hcs : opts.CloseStdin = closeStdin env cntr := by rw [← hopts]
  generalize launched id cntr state stdin stdout stderr tty = L
  obtain ⟨t1, e1, hio1, hc1⟩ := ioLayer_log env cntr opts hcs sched.beforeStart L
  refine ⟨t1, hio1, hc1, ?_⟩
  rw [e1]
  have key : ∀ (mid : History),
      (∃ t2 : History, (∀ e ∈ t2, e.fromCloseStdin = true) ∧
        t2.countP Event.isCloseStdinLookup = sched.beforeTask ∧
        ((∃ err, env.containerTask cntr (L ++ t1 ++ mid ++ t2) = Except.error err ∧
            (match env.containerTask cntr (ioLayer opts sched.beforeTask (L ++ t1 ++ mid)) with
              | .error err =>
                (⟨some (Error.wrap err "failed to load task"),
                  ioLayer opts sched.beforeTask (L ++ t1 ++ mid) ++
                    [Event.containerTask cntr.ID Site.resize (Except.error err)]⟩ : Outcome)
              | .ok task =>
                ⟨egWait [ioBindingOutcome],
                  runTicks opts (resizeFunc env cntr.ID task) sched.untilJoin resize
                    (ioLayer opts sched.beforeRelay
                      (ioLayer opts sched.beforeTask (L ++ t1 ++ mid) ++
                        [Event.containerTask cntr.ID Site.resize (Except.ok task)]) ++
                      [Event.handleResizing cntr.ID])⟩) =
              ⟨some (Error.wrap err "failed to load task"),
                L ++ t1 ++ mid ++ t2 ++ [Event.containerTask cntr.ID Site.resize (Except.error err)]⟩)
         ∨ ∃ (task : Task) (t3 t4 : History),
            env.containerTask cntr (L ++ t1 ++ mid ++ t2) = Except.ok task ∧
            (∀ e ∈ t3, e.fromCloseStdin = true) ∧
            t3.countP Event.isCloseStdinLookup = sched.beforeRelay ∧
            (∀ e ∈ t4, e.fromGoroutine = true) ∧
            t4.countP Event.isCloseStdinLookup = sched.untilJoin.count .io ∧
            resizeArgs t4 = (resize.take (sched.untilJoin.count .relay)).map
              (fun size => (uint32 size.Width, uint32 size.Height)) ∧
            t4.countP Event.isLogError = t4.countP Event.isFailedResize ∧
            (match env.containerTask cntr (ioLayer opts sched.beforeTask (L ++ t1 ++ mid)) with
              | .error err =>
                (⟨some (Error.wrap err "failed to load task"),
                  ioLayer opts sched.beforeTask (L ++ t1 ++ mid) ++
                    [Event.containerTask cntr.ID Site.resize (Except.error err)]⟩ : Outcome)
              | .ok task =>
                ⟨egWait [ioBindingOutcome],
                  runTicks opts (resizeFunc env cntr.ID task) sched.untilJoin resize
                    (ioLayer opts sched.beforeRelay
                      (ioLayer opts sched.beforeTask (L ++ t1 ++ mid) ++
                        [Event.containerTask cntr.ID Site.resize (Except.ok task)]) ++
                      [Event.handleResizing cntr.ID])⟩) =
              ⟨none, L ++ t1 ++ mid ++ t2 ++ [Event.containerTask cntr.ID Site.resize (Except.ok task)] ++ t3 ++
                [Event.handleResizing cntr.ID] ++ t4⟩)) := by
    intro mid
    obtain ⟨t2, e2, hio2, hc2⟩ := ioLayer_log env cntr opts hcs sched.beforeTask (L ++ t1 ++ mid)
    refine ⟨t2, hio2, hc2, ?_⟩
    rw [e2]
    cases htask : env.containerTask cntr (L ++ t1 ++ mid ++ t2) with
    | error err => exact Or.inl ⟨err, rfl, rfl⟩
    | ok task =>
      right
      obtain ⟨t3, e3, hio3, hc3⟩ := ioLayer_log env cntr opts hcs sched.beforeRelay
        (L ++ t1 ++ mid ++ t2 ++ [.containerTask cntr.ID .resize (.ok task)])
      obtain ⟨t4, e4, hio4, hc4, ha4, hl4⟩ := runTicks_log env cntr opts hcs cntr.ID task sched.untilJoin
        resize (L ++ t1 ++ mid ++ t2 ++ [.containerTask cntr.ID .resize (.ok task)] ++ t3 ++
          [.handleResizing cntr.ID])
      refine ⟨task, t3, t4, rfl, hio3, hc3, hio4, hc4, ha4, hl4, ?_⟩
      simp only [e3, e4]
      rfl
  rcases hgate with hrun | hcre
  · have hne : ¬ state = ContainerState_CONTAINER_CREATED := by
      rw [hrun]; decide
    right
    obtain ⟨t2, hio2, hc2, hrest⟩ := key []
    refine ⟨[], t2, Or.inr ⟨hrun, rfl⟩, hio2, hc2, ?_⟩
    simpa only [if_neg hne, List.append_nil] using hrest
  · simp only [if_pos hcre]
    cases hstart : env.startContainer cntr.ID (L ++ t1) with
    | some err => exact Or.inl ⟨hcre, err, rfl, rfl⟩
    | none =>
      right
      obtain ⟨t2, hio2, hc2, hrest⟩ := key [.startContainer cntr.ID none]
      exact ⟨[.startContainer cntr.ID none], t2, Or.inl ⟨hcre, rfl, rfl⟩, hio2, hc2, hrest⟩

/-! ## Events a goroutine cannot add -/

theorem countP_goroutine_zero (p : Event → Bool) (hp : ∀ e, e.fromGoroutine = true → p e = false)
    (t : History) (ht : ∀ e ∈ t, e.fromGoroutine = true) : t.countP p = 0 := by
  rw [List.countP_eq_zero]
  intro e he
  simp [hp e (ht e he)]

theorem countP_closeStdin_zero (p : Event → Bool) (hp : ∀ e, e.fromCloseStdin = true → p e = false)
    (t : History) (ht : ∀ e ∈ t, e.fromCloseStdin = true) : t.countP p = 0 := by
  rw [List.countP_eq_zero]
  intro e he
  simp [hp e (ht e he)]

theorem goroutine_not_start (e : Event) (h : e.fromGoroutine = true) : e.isStart = false := by
  cases e <;> simp_all [Event.fromGoroutine, Event.isStart]

theorem goroutine_not_goAttach (e : Event) (h : e.fromGoroutine = true) :
    e.isGoAttach = false := by
  cases e <;> simp_all [Event.fromGoroutine, Event.isGoAttach]

theorem goroutine_not_relayStart (e : Event) (h : e.fromGoroutine = true) :
    e.isRelayStart = false := by
  cases e <;> simp_all [Event.fromGoroutine, Event.isRelayStart]

theorem goroutine_not_statusRead (e : Event) (h : e.fromGoroutine = true) :
    e.isStatusRead = false := by
  cases e <;> simp_all [Event.fromGoroutine, Event.isStatusRead]

theorem goroutine_not_resizeLookup (e : Event) (h : e.fromGoroutine = true) :
    e.isResizeLookup = false := by
  cases e with
  | containerTask cid site res => cases site <;> simp_all [Event.fromGoroutine, Event.isResizeLookup]
  | _ => simp_all [Event.fromGoroutine, Event.isResizeLookup]

theorem closeStdin_not_resizeCall (e : Event) (h : e.fromCloseStdin = true) :
    e.isResizeCall = false := by
  cases e <;> simp_all [Event.fromCloseStdin, Event.isResizeCall]

theorem closeStdin_not_logError (e : Event) (h : e.fromCloseStdin = true) :
    e.isLogError = false := by
  cases e <;> simp_all [Event.fromCloseStdin, Event.isLogError]

/-! ## The two sides of the state gate -/

theorem attachContainer_launched (env : Env) (sched : Schedule) (id : String) (stdin : Stream)
    (stdout stderr : Stream) (tty : Bool) (resize : List TerminalSize) (cntr : Container)
    (state : ContainerState)
    (hget : env.containerStoreGet id [] = .ok cntr)
    (hstate : env.statusState cntr [.storeGet id (.ok cntr)] = state)
    (hgate : state = ContainerState_CONTAINER_RUNNING ∨ state = ContainerState_CONTAINER_CREATED) :
    ∃ rest, (attachContainer env sched id stdin stdout stderr tty resize).log =
      launched id cntr state stdin stdout stderr tty ++ rest := by
  obtain ⟨t1, -, -, hcase⟩ := attachContainer_shape env sched id stdin stdout stderr tty resize
    cntr state hget hstate hgate
  rcases hcase with ⟨-, err, -, hout⟩ | ⟨mid, t2, -, -, -, ⟨err, -, hout⟩ | ⟨task, t3, t4, -, -, -, -, -, -, -, hout⟩⟩
  · exact ⟨_, by rw [hout, List.append_assoc]⟩
  · exact ⟨_, by rw [hout]; simp only [List.append_assoc]; rfl⟩
  · exact ⟨_, by rw [hout]; simp only [List.append_assoc]; rfl⟩

theorem attachContainer_rejected (env : Env) (sched : Schedule) (id : String) (stdin : Stream)
    (stdout stderr : Stream) (tty : Bool) (resize : List TerminalSize) (cntr : Container)
    (state : ContainerState)
    (hget : env.containerStoreGet id [] = .ok cntr)
    (hstate : env.statusState cntr [.storeGet id (.ok cntr)] = state)
    (hgate : ¬ (state = ContainerState_CONTAINER_RUNNING ∨
      state = ContainerState_CONTAINER_CREATED)) :
    attachContainer env sched id stdin stdout stderr tty resize =
      ⟨some (.base ("container is in " ++ env.criContainerStateToString state ++ " state")),
        [.storeGet id (.ok cntr), .statusState cntr.ID state]⟩ := by
  have hnot : state ≠ ContainerState_CONTAINER_RUNNING ∧
      state ≠ ContainerState_CONTAINER_CREATED := by
    constructor
    · exact fun h => hgate (Or.inl h)
    · exact fun h => hgate (Or.inr h)
  simp only [attachContainer, hget, hstate, if_pos hnot]
  rfl

theorem stoppedAtGate_launched (id : String) (cntr : Container) (state : ContainerState)
    (stdin stdout stderr : Stream) (tty : Bool) (rest : History) :
    stoppedAtGate (launched id cntr state stdin stdout stderr tty ++ rest) = false := rfl

/-! ## The state gate -/

/-- C1: for a record that lookup resolves with state `state`, `attachContainer` goes past the
state gate (it launches the IO binding, so its history starts with `launched`) exactly when
the state is `CONTAINER_RUNNING` or `CONTAINER_CREATED`; for every other state, known or not,
it returns the error "container is in <name> state" having made only the lookup and the state
read: no `StartContainer` call, no IO binding, no task lookup, no relay. -/
theorem attachContainer_state_gate (env : Env) (sched : Schedule) (id : String) (stdin : Stream)
    (stdout stderr : Stream) (tty : Bool) (resize : List TerminalSize) (cntr : Container)
    (state : ContainerState)
    (hget : env.containerStoreGet id [] = .ok cntr)
    (hstate : env.statusState cntr [.storeGet id (.ok cntr)] = state) :
    ((∃ rest, (attachContainer env sched id stdin stdout stderr tty resize).log =
          launched id cntr state stdin stdout stderr tty ++ rest) ↔
        (state = ContainerState_CONTAINER_RUNNING ∨ state = ContainerState_CONTAINER_CREATED)) ∧
    (stoppedAtGate (attachContainer env sched id stdin stdout stderr tty resize).log = false ↔
        (state = ContainerState_CONTAINER_RUNNING ∨ state = ContainerState_CONTAINER_CREATED)) ∧
    (¬ (state = ContainerState_CONTAINER_RUNNING ∨ state = ContainerState_CONTAINER_CREATED) →
      (attachContainer env sched id stdin stdout stderr tty resize).err =
        some (.base ("container is in " ++ env.criContainerStateToString state ++ " state")) ∧
      (attachContainer env sched id stdin stdout stderr tty resize).log =
        [.storeGet id (.ok cntr), .statusState cntr.ID state] ∧
      (attachContainer env sched id stdin stdout stderr tty resize).log.countP Event.isStart = 0 ∧
      (attachContainer env sched id stdin stdout stderr tty resize).log.countP Event.isGoAttach = 0 ∧
      (attachContainer env sched id stdin stdout stderr tty resize).log.countP Event.isTaskLookup = 0 ∧
      (attachContainer env sched id stdin stdout stderr tty resize).log.countP Event.isRelayStart = 0) := by
  by_cases hgate : state = ContainerState_CONTAINER_RUNNING ∨ state = ContainerState_CONTAINER_CREATED
  · have hpre := attachContainer_launched env sched id stdin stdout stderr tty resize cntr state
      hget hstate hgate
    refine ⟨⟨fun _ => hgate, fun _ => hpre⟩, ⟨fun _ => hgate, fun _ => ?_⟩, fun h => absurd hgate h⟩
    obtain ⟨rest, hrest⟩ := hpre
    rw [hrest]
    rfl
  · have hout := attachContainer_rejected env sched id stdin stdout stderr tty resize cntr state
      hget hstate hgate
    refine ⟨⟨fun h => ?_, fun h => absurd h hgate⟩, ⟨fun h => ?_, fun h => absurd h hgate⟩, fun _ => ?_⟩
    · obtain ⟨rest, hrest⟩ := h
      rw [hout] at hrest
      simp [launched] at hrest
    · rw [hout] at h
      simp [stoppedAtGate] at h
    · rw [hout]
      simp [Event.isStart, Event.isGoAttach, Event.isTaskLookup, Event.isRelayStart]

/-- C1, on the store of `sampleEnv`: container `c2` is in state `EXITED`. -/
theorem attachContainer_state_gate_witness :
    sampleEnv.containerStoreGet "c2" [] = .ok ⟨"c2", false⟩ ∧
    sampleEnv.statusState ⟨"c2", false⟩ [.storeGet "c2" (.ok ⟨"c2", false⟩)] =
      ContainerState_CONTAINER_EXITED ∧
    (attachContainer sampleEnv busy "c2" 10 11 12 true [⟨80, 24⟩]).err =
      some (.base "container is in CONTAINER_EXITED state") ∧
    (attachContainer sampleEnv busy "c2" 10 11 12 true [⟨80, 24⟩]).log =
      [.storeGet "c2" (.ok ⟨"c2", false⟩), .statusState "c2" ContainerState_CONTAINER_EXITED] :=
  ⟨by decide, by decide,
    ((attachContainer_state_gate sampleEnv busy "c2" 10 11 12 true [⟨80, 24⟩] ⟨"c2", false⟩
      ContainerState_CONTAINER_EXITED (by decide) (by decide)).2.2 (by decide)).1,
    ((attachContainer_state_gate sampleEnv busy "c2" 10 11 12 true [⟨80, 24⟩] ⟨"c2", false⟩
      ContainerState_CONTAINER_EXITED (by decide) (by decide)).2.2 (by decide)).2.1⟩

/-! ## Lookup failure -/

/-- C9: if the store lookup of `id` fails with `err`, `attachContainer` returns an error that
wraps `err` with the message "failed to find container <quoted id> in store", and its history
is the lookup alone: no state read, no IO binding, no `StartContainer`, no task lookup, no
relay.  If the lookup of the request of `Attach` fails with `err2`, `Attach` returns no
response and an error wrapping `err2`, and `GetAttach` is not called. -/
theorem lookup_failure (env : Env) (sched : Schedule) (id : String) (stdin : Stream)
    (stdout stderr : Stream) (tty : Bool) (resize : List TerminalSize) (r : AttachRequest)
    (err err2 : Error)
    (hget : env.containerStoreGet id [] = .error err)
    (hget2 : env.containerStoreGet r.ContainerId [] = .error err2) :
    (attachContainer env sched id stdin stdout stderr tty resize).err =
      some (.wrap err ("failed to find container " ++ env.quote id ++ " in store")) ∧
    (∀ e, (attachContainer env sched id stdin stdout stderr tty resize).err = some e →
      e.message = "failed to find container " ++ env.quote id ++ " in store" ++ ": " ++ err.message ∧
      e.rootCause = err.rootCause) ∧
    (attachContainer env sched id stdin stdout stderr tty resize).log = [.storeGet id (.error err)] ∧
    (attachContainer env sched id stdin stdout stderr tty resize).log.countP Event.isStatusRead = 0 ∧
    (attachContainer env sched id stdin stdout stderr tty resize).log.countP Event.isGoAttach = 0 ∧
    (attachContainer env sched id stdin stdout stderr tty resize).log.countP Event.isStart = 0 ∧
    (attachContainer env sched id stdin stdout stderr tty resize).log.countP Event.isTaskLookup = 0 ∧
    (attachContainer env sched id stdin stdout stderr tty resize).log.countP Event.isRelayStart = 0 ∧
    Attach env r = (.error (.wrap err2 "failed to find container in store"),
      [.storeGet r.ContainerId (.error err2)]) ∧
    (Attach env r).2.countP Event.isGetAttach = 0 := by
  have hout : attachContainer env sched id stdin stdout stderr tty resize =
      ⟨some (.wrap err ("failed to find container " ++ env.quote id ++ " in store")),
        [.storeGet id (.error err)]⟩ := by
    simp only [attachContainer, hget]
  have hatt : Attach env r = (.error (.wrap err2 "failed to find container in store"),
      [.storeGet r.ContainerId (.error err2)]) := by
    simp only [Attach, hget2]
  rw [hout, hatt]
  refine ⟨rfl, ?_, rfl, ?_, ?_, ?_, ?_, ?_, rfl, ?_⟩
  · intro e he
    cases he
    exact ⟨rfl, rfl⟩
  all_goals simp [Event.isStatusRead, Event.isGoAttach, Event.isStart, Event.isTaskLookup,
    Event.isRelayStart, Event.isGetAttach]

/-- C9, on the store of `sampleEnv`: no container is called `nope`. -/
theorem lookup_failure_witness :
    sampleEnv.containerStoreGet "nope" [] = .error (.base "not found") ∧
    (attachContainer sampleEnv busy "nope" 10 11 12 true [⟨80, 24⟩]).err =
      some (.wrap (.base "not found")
        ("failed to find container " ++ plainQuote "nope" ++ " in store")) ∧
    (attachContainer sampleEnv busy "nope" 10 11 12 true [⟨80, 24⟩]).log =
      [.storeGet "nope" (.error (.base "not found"))] ∧
    Attach sampleEnv ⟨"nope", true, true, true, false⟩ =
      (.error (.wrap (.base "not found") "failed to find container in store"),
        [.storeGet "nope" (.error (.base "not found"))]) :=
  ⟨by decide,
    (lookup_failure sampleEnv busy "nope" 10 11 12 true [⟨80, 24⟩]
      ⟨"nope", true, true, true, false⟩ (.base "not found") (.base "not found")
      (by decide) (by decide)).1,
    (lookup_failure sampleEnv busy "nope" 10 11 12 true [⟨80, 24⟩]
      ⟨"nope", true, true, true, false⟩ (.base "not found") (.base "not found")
      (by decide) (by decide)).2.2.1,
    (lookup_failure sampleEnv busy "nope" 10 11 12 true [⟨80, 24⟩]
      ⟨"nope", true, true, true, false⟩ (.base "not found") (.base "not found")
      (by decide) (by decide)).2.2.2.2.2.2.2.2.1⟩

/-! ## The pre-flight query -/

/-- C3: for a record that lookup resolves, `Attach` and `attachContainer` decide alike on the
state read: one stops at the state gate exactly when the other does, that is exactly when the
state is neither `CONTAINER_RUNNING` nor `CONTAINER_CREATED`, and then both return the same
error; when the gate accepts, `Attach` returns what `streamServer.GetAttach(r)` returns, and
its history is the lookup, the state read and the `GetAttach` call: no `StartContainer` call
and no IO binding. -/
theorem Attach_same_gate (env : Env) (sched : Schedule) (r : AttachRequest) (stdin : Stream)
    (stdout stderr : Stream) (tty : Bool) (resize : List TerminalSize) (cntr : Container)
    (state : ContainerState)
    (hget : env.containerStoreGet r.ContainerId [] = .ok cntr)
    (hstate : env.statusState cntr [.storeGet r.ContainerId (.ok cntr)] = state) :
    (stoppedAtGate (Attach env r).2 =
      stoppedAtGate (attachContainer env sched r.ContainerId stdin stdout stderr tty resize).log) ∧
    (stoppedAtGate (Attach env r).2 = true ↔
      ¬ (state = ContainerState_CONTAINER_RUNNING ∨ state = ContainerState_CONTAINER_CREATED)) ∧
    (stoppedAtGate (Attach env r).2 = true →
      (Attach env r).1 =
        .error (.base ("container is in " ++ env.criContainerStateToString state ++ " state")) ∧
      (attachContainer env sched r.ContainerId stdin stdout stderr tty resize).err =
        some (.base ("container is in " ++ env.criContainerStateToString state ++ " state"))) ∧
    (stoppedAtGate (Attach env r).2 = false →
      (Attach env r).1 = env.streamServerGetAttach r
        [.storeGet r.ContainerId (.ok cntr), .statusState cntr.ID state] ∧
      (Attach env r).2 = [.storeGet r.ContainerId (.ok cntr), .statusState cntr.ID state,
        .getAttach r (env.streamServerGetAttach r
          [.storeGet r.ContainerId (.ok cntr), .statusState cntr.ID state])] ∧
      (Attach env r).2.countP Event.isStart = 0 ∧
      (Attach env r).2.countP Event.isGoAttach = 0) := by
  by_cases hgate : state = ContainerState_CONTAINER_RUNNING ∨ state = ContainerState_CONTAINER_CREATED
  · have hnot : ¬ (state ≠ ContainerState_CONTAINER_RUNNING ∧
        state ≠ ContainerState_CONTAINER_CREATED) := by
      rcases hgate with h | h <;> simp [h]
    have hatt : Attach env r = (env.streamServerGetAttach r
        [.storeGet r.ContainerId (.ok cntr), .statusState cntr.ID state],
        [.storeGet r.ContainerId (.ok cntr), .statusState cntr.ID state,
          .getAttach r (env.streamServerGetAttach r
            [.storeGet r.ContainerId (.ok cntr), .statusState cntr.ID state])]) := by
      simp only [Attach, hget, hstate, if_neg hnot]
      rfl
    have hA : stoppedAtGate (Attach env r).2 = false := by
      rw [hatt]
      rfl
    refine ⟨?_, ?_, ?_, ?_⟩
    · obtain ⟨rest, hrest⟩ := attachContainer_launched env sched r.ContainerId stdin stdout
        stderr tty resize cntr state hget hstate hgate
      rw [hA, hrest, stoppedAtGate_launched]
    · rw [hA]
      simp [hgate]
    · rw [hA]
      intro h
      cases h
    · intro _
      rw [hatt]
      simp [Event.isStart, Event.isGoAttach]
  · have hnot : state ≠ ContainerState_CONTAINER_RUNNING ∧
        state ≠ ContainerState_CONTAINER_CREATED := by
      constructor
      · exact fun h => hgate (Or.inl h)
      · exact fun h => hgate (Or.inr h)
    have hatt : Attach env r =
        (.error (.base ("container is in " ++ env.criContainerStateToString state ++ " state")),
          [.storeGet r.ContainerId (.ok cntr), .statusState cntr.ID state]) := by
      simp only [Attach, hget, hstate, if_pos hnot]
      rfl
    have hA : stoppedAtGate (Attach env r).2 = true := by
      rw [hatt]
      rfl
    have hout := attachContainer_rejected env sched r.ContainerId stdin stdout stderr tty resize
      cntr state hget hstate hgate
    refine ⟨?_, ?_, ?_, ?_⟩
    · rw [hA, hout]
      rfl
    · rw [hA]
      simp [hgate]
    · intro _
      exact ⟨by rw [hatt], by rw [hout]⟩
    · rw [hA]
      intro h
      cases h

/-- C3, on the store of `sampleEnv`: container `c7` is in state 42, container `c3` is running. -/
theorem Attach_same_gate_witness :
    (sampleEnv.containerStoreGet "c7" [] = .ok ⟨"c7", false⟩ ∧
      sampleEnv.statusState ⟨"c7", false⟩ [.storeGet "c7" (.ok ⟨"c7", false⟩)] = 42 ∧
      stoppedAtGate (Attach sampleEnv ⟨"c7", true, true, true, false⟩).2 = true ∧
      (Attach sampleEnv ⟨"c7", true, true, true, false⟩).1 =
        .error (.base "container is in  state") ∧
      (attachContainer sampleEnv busy "c7" 10 11 12 true [⟨80, 24⟩]).err =
        some (.base "container is in  state")) ∧
    (sampleEnv.containerStoreGet "c3" [] = .ok ⟨"c3", true⟩ ∧
      sampleEnv.statusState ⟨"c3", true⟩ [.storeGet "c3" (.ok ⟨"c3", true⟩)] =
        ContainerState_CONTAINER_RUNNING ∧
      stoppedAtGate (Attach sampleEnv ⟨"c3", true, true, true, false⟩).2 = false ∧
      (Attach sampleEnv ⟨"c3", true, true, true, false⟩).1 =
        .ok ⟨"http://127.0.0.1:10010/attach/c3"⟩) :=
  ⟨⟨by decide, by decide, by decide,
      (Attach_same_gate sampleEnv busy ⟨"c7", true, true, true, false⟩ 10 11 12 true [⟨80, 24⟩]
        ⟨"c7", false⟩ 42 (by decide) (by decide)).2.2.1 (by decide)⟩,
    ⟨by decide, by decide, by decide,
      ((Attach_same_gate sampleEnv busy ⟨"c3", true, true, true, false⟩ 10 11 12 true [⟨80, 24⟩]
        ⟨"c3", true⟩ ContainerState_CONTAINER_RUNNING (by decide) (by decide)).2.2.2
          (by decide)).1⟩⟩

/-! ## The implicit start -/

/-- C2: for a record that lookup resolves, the state is read once; if the state read is
`CONTAINER_CREATED`, the history holds exactly one `StartContainer` call, its `ContainerId` is
`cntr.ID` of the resolved record, and no `Container.Task` call of line 88 comes before it; if
the state read is `CONTAINER_RUNNING`, the history holds no `StartContainer` call. -/
theorem implicit_start (env : Env) (sched : Schedule) (id : String) (stdin : Stream)
    (stdout stderr : Stream) (tty : Bool) (resize : List TerminalSize) (cntr : Container)
    (state : ContainerState)
    (hget : env.containerStoreGet id [] = .ok cntr)
    (hstate : env.statusState cntr [.storeGet id (.ok cntr)] = state) :
    (state = ContainerState_CONTAINER_CREATED →
      (∃ (pre post : History) (res : Option Error),
        (attachContainer env sched id stdin stdout stderr tty resize).log =
          pre ++ [.startContainer cntr.ID res] ++ post ∧
        pre.countP Event.isStart = 0 ∧ post.countP Event.isStart = 0 ∧
        pre.countP Event.isResizeLookup = 0) ∧
      (attachContainer env sched id stdin stdout stderr tty resize).log.countP Event.isStart = 1 ∧
      (attachContainer env sched id stdin stdout stderr tty resize).log.countP
        Event.isStatusRead = 1) ∧
    (state = ContainerState_CONTAINER_RUNNING →
      (attachContainer env sched id stdin stdout stderr tty resize).log.countP Event.isStart = 0 ∧
      (attachContainer env sched id stdin stdout stderr tty resize).log.countP
        Event.isStatusRead = 1) := by
  have zs : ∀ t : History, (∀ e ∈ t, e.fromCloseStdin = true) → t.countP Event.isStart = 0 :=
    fun t ht => countP_goroutine_zero _ goroutine_not_start t
      (fun e he => fromCloseStdin_fromGoroutine e (ht e he))
  have zr : ∀ t : History, (∀ e ∈ t, e.fromCloseStdin = true) →
      t.countP Event.isResizeLookup = 0 :=
    fun t ht => countP_goroutine_zero _ goroutine_not_resizeLookup t
      (fun e he => fromCloseStdin_fromGoroutine e (ht e he))
  have zq : ∀ t : History, (∀ e ∈ t, e.fromCloseStdin = true) →
      t.countP Event.isStatusRead = 0 :=
    fun t ht => countP_goroutine_zero _ goroutine_not_statusRead t
      (fun e he => fromCloseStdin_fromGoroutine e (ht e he))
  have hLs : (launched id cntr state stdin stdout stderr tty).countP Event.isStart = 0 := rfl
  have hLr : (launched id cntr state stdin stdout stderr tty).countP Event.isResizeLookup = 0 :=
    rfl
  have hLq : (launched id cntr state stdin stdout stderr tty).countP Event.isStatusRead = 1 :=
    rfl
  constructor
  · intro hcre
    obtain ⟨t1, hio1, -, hcase⟩ := attachContainer_shape env sched id stdin stdout stderr tty
      resize cntr state hget hstate (Or.inr hcre)
    have hne : ¬ (ContainerState_CONTAINER_CREATED = ContainerState_CONTAINER_RUNNING) := by
      decide
    rcases hcase with ⟨-, err, -, hout⟩ |
      ⟨mid, t2, ⟨-, -, hmid⟩ | ⟨hrun, -⟩, hio2, -,
        ⟨err, -, hout⟩ | ⟨task, t3, t4, -, hio3, -, hio4, -, -, -, hout⟩⟩
    · refine ⟨⟨launched id cntr state stdin stdout stderr tty ++ t1, [], some err, ?_, ?_, ?_, ?_⟩,
        ?_, ?_⟩
      · rw [hout, List.append_nil]
      · rw [List.countP_append, hLs, zs t1 hio1]
      · rfl
      · rw [List.countP_append, hLr, zr t1 hio1]
      · rw [hout]
        simp only [List.countP_append, hLs, zs t1 hio1]
        rfl
      · rw [hout]
        simp only [List.countP_append, hLq, zq t1 hio1]
        rfl
    · subst hmid
      refine ⟨⟨launched id cntr state stdin stdout stderr tty ++ t1,
        t2 ++ [.containerTask cntr.ID .resize (.error err)], none, ?_, ?_, ?_, ?_⟩, ?_, ?_⟩
      · rw [hout]
        simp only [List.append_assoc]
      · rw [List.countP_append, hLs, zs t1 hio1]
      · rw [List.countP_append, zs t2 hio2]
        rfl
      · rw [List.countP_append, hLr, zr t1 hio1]
      · rw [hout]
        simp only [List.countP_append, hLs, zs t1 hio1, zs t2 hio2]
        rfl
      · rw [hout]
        simp only [List.countP_append, hLq, zq t1 hio1, zq t2 hio2]
        rfl
    · subst hmid
      have z4 : t4.countP Event.isStart = 0 := countP_goroutine_zero _ goroutine_not_start t4 hio4
      have q4 : t4.countP Event.isStatusRead = 0 :=
        countP_goroutine_zero _ goroutine_not_statusRead t4 hio4
      refine ⟨⟨launched id cntr state stdin stdout stderr tty ++ t1,
        t2 ++ [.containerTask cntr.ID .resize (.ok task)] ++ t3 ++ [.handleResizing cntr.ID] ++ t4,
        none, ?_, ?_, ?_, ?_⟩, ?_, ?_⟩
      · rw [hout]
        simp only [List.append_assoc]
      · rw [List.countP_append, hLs, zs t1 hio1]
      · simp only [List.countP_append, zs t2 hio2, zs t3 hio3, z4]
        rfl
      · rw [List.countP_append, hLr, zr t1 hio1]
      · rw [hout]
        simp only [List.countP_append, hLs, zs t1 hio1, zs t2 hio2, zs t3 hio3, z4]
        rfl
      · rw [hout]
        simp only [List.countP_append, hLq, zq t1 hio1, zq t2 hio2, zq t3 hio3, q4]
        rfl
    · exact absurd (hcre.symm.trans hrun) hne
    · exact absurd (hcre.symm.trans hrun) hne
  · intro hrun
    obtain ⟨t1, hio1, -, hcase⟩ := attachContainer_shape env sched id stdin stdout stderr tty
      resize cntr state hget hstate (Or.inl hrun)
    have hne : ¬ (ContainerState_CONTAINER_CREATED = ContainerState_CONTAINER_RUNNING) := by
      decide
    rcases hcase with ⟨hcre, -⟩ |
      ⟨mid, t2, ⟨hcre, -⟩ | ⟨-, hmid⟩, hio2, -,
        ⟨err, -, hout⟩ | ⟨task, t3, t4, -, hio3, -, hio4, -, -, -, hout⟩⟩
    · exact absurd (hcre.symm.trans hrun) hne
    · exact absurd (hcre.symm.trans hrun) hne
    · exact absurd (hcre.symm.trans hrun) hne
    · subst hmid
      rw [hout]
      simp only [List.countP_append, hLs, hLq, zs t1 hio1, zs t2 hio2, zq t1 hio1, zq t2 hio2]
      exact ⟨rfl, rfl⟩
    · subst hmid
      have z4 : t4.countP Event.isStart = 0 := countP_goroutine_zero _ goroutine_not_start t4 hio4
      have q4 : t4.countP Event.isStatusRead = 0 :=
        countP_goroutine_zero _ goroutine_not_statusRead t4 hio4
      rw [hout]
      simp only [List.countP_append, hLs, hLq, zs t1 hio1, zs t2 hio2, zs t3 hio3, z4,
        zq t1 hio1, zq t2 hio2, zq t3 hio3, q4]
      exact ⟨rfl, rfl⟩

/-- C2, on the store of `sampleEnv`: the short identifier `c4a` resolves to the created
container `c4abcdef`, which is started once under its full identifier; the running container
`c3` is not started. -/
theorem implicit_start_witness :
    (sampleEnv.containerStoreGet "c4a" [] = .ok ⟨"c4abcdef", false⟩ ∧
      sampleEnv.statusState ⟨"c4abcdef", false⟩ [.storeGet "c4a" (.ok ⟨"c4abcdef", false⟩)] =
        ContainerState_CONTAINER_CREATED ∧
      (attachContainer sampleEnv busy "c4a" 10 11 12 true [⟨80, 24⟩]).log.countP
        Event.isStart = 1 ∧
      Event.startContainer "c4abcdef" none ∈
        (attachContainer sampleEnv busy "c4a" 10 11 12 true [⟨80, 24⟩]).log) ∧
    (sampleEnv.containerStoreGet "c3" [] = .ok ⟨"c3", true⟩ ∧
      sampleEnv.statusState ⟨"c3", true⟩ [.storeGet "c3" (.ok ⟨"c3", true⟩)] =
        ContainerState_CONTAINER_RUNNING ∧
      (attachContainer sampleEnv busy "c3" 10 11 12 true [⟨80, 24⟩]).log.countP
        Event.isStart = 0) :=
  ⟨⟨by decide, by decide,
      ((implicit_start sampleEnv busy "c4a" 10 11 12 true [⟨80, 24⟩] ⟨"c4abcdef", false⟩
        ContainerState_CONTAINER_CREATED (by decide) (by decide)).1 (by decide)).2.1,
      by decide⟩,
    ⟨by decide, by decide,
      ((implicit_start sampleEnv busy "c3" 10 11 12 true [⟨80, 24⟩] ⟨"c3", true⟩
        ContainerState_CONTAINER_RUNNING (by decide) (by decide)).2 (by decide)).1⟩⟩

theorem start_not_mem_goroutine (t : History) (ht : ∀ e ∈ t, e.fromGoroutine = true)
    (cid : String) (res : Option Error) : Event.startContainer cid res ∉ t := by
  intro hmem
  have := ht _ hmem
  simp [Event.fromGoroutine] at this

theorem start_not_mem_closeStdin (t : History) (ht : ∀ e ∈ t, e.fromCloseStdin = true)
    (cid : String) (res : Option Error) : Event.startContainer cid res ∉ t :=
  start_not_mem_goroutine t (fun e he => fromCloseStdin_fromGoroutine e (ht e he)) cid res

theorem start_not_mem_launched (id : String) (cntr : Container) (state : ContainerState)
    (stdin stdout stderr : Stream) (tty : Bool) (cid : String) (res : Option Error) :
    Event.startContainer cid res ∉ launched id cntr state stdin stdout stderr tty := by
  simp [launched]

/-- C5: if the state read is `CONTAINER_CREATED` and the `StartContainer` call returns the
error `err`, then `attachContainer` returns `err` itself, the failed start is the last call of
the history, and the history holds no `Container.Task` call of line 88, no start of the relay
and no `task.Resize` call. -/
theorem start_failure (env : Env) (sched : Schedule) (id : String) (stdin : Stream)
    (stdout stderr : Stream) (tty : Bool) (resize : List TerminalSize) (cntr : Container)
    (state : ContainerState) (err : Error)
    (hget : env.containerStoreGet id [] = .ok cntr)
    (hstate : env.statusState cntr [.storeGet id (.ok cntr)] = state)
    (hcre : state = ContainerState_CONTAINER_CREATED)
    (hstart : Event.startContainer cntr.ID (some err) ∈
      (attachContainer env sched id stdin stdout stderr tty resize).log) :
    (attachContainer env sched id stdin stdout stderr tty resize).err = some err ∧
    (∀ e, (attachContainer env sched id stdin stdout stderr tty resize).err = some e →
      e.rootCause = err.rootCause) ∧
    (∃ pre : History, (attachContainer env sched id stdin stdout stderr tty resize).log =
      pre ++ [.startContainer cntr.ID (some err)]) ∧
    (attachContainer env sched id stdin stdout stderr tty resize).log.countP
      Event.isResizeLookup = 0 ∧
    (attachContainer env sched id stdin stdout stderr tty resize).log.countP
      Event.isRelayStart = 0 ∧
    (attachContainer env sched id stdin stdout stderr tty resize).log.countP
      Event.isResizeCall = 0 := by
  obtain ⟨t1, hio1, -, hcase⟩ := attachContainer_shape env sched id stdin stdout stderr tty
    resize cntr state hget hstate (Or.inr hcre)
  have hL := start_not_mem_launched id cntr state stdin stdout stderr tty cntr.ID (some err)
  have h1 := start_not_mem_closeStdin t1 hio1 cntr.ID (some err)
  rcases hcase with ⟨-, err1, -, hout⟩ |
    ⟨mid, t2, hmid, hio2, -, ⟨err1, -, hout⟩ | ⟨task, t3, t4, -, hio3, -, hio4, -, -, -, hout⟩⟩
  · rw [hout] at hstart ⊢
    have herr : err1 = err := by
      simp only [List.mem_append, List.mem_singleton] at hstart
      rcases hstart with (h | h) | h
      · exact absurd h hL
      · exact absurd h h1
      · injection h with _ h
        injection h with h
        exact h.symm
    subst herr
    have zr : t1.countP Event.isResizeLookup = 0 :=
      countP_goroutine_zero _ goroutine_not_resizeLookup t1
        (fun e he => fromCloseStdin_fromGoroutine e (hio1 e he))
    have zs : t1.countP Event.isRelayStart = 0 :=
      countP_goroutine_zero _ goroutine_not_relayStart t1
        (fun e he => fromCloseStdin_fromGoroutine e (hio1 e he))
    have zc : t1.countP Event.isResizeCall = 0 :=
      countP_closeStdin_zero _ closeStdin_not_resizeCall t1 hio1
    refine ⟨rfl, ?_, ⟨_, rfl⟩, ?_, ?_, ?_⟩
    · intro e he
      cases he
      rfl
    · simp only [List.countP_append, zr]
      rfl
    · simp only [List.countP_append, zs]
      rfl
    · simp only [List.countP_append, zc]
      rfl
  · exfalso
    have h2 := start_not_mem_closeStdin t2 hio2 cntr.ID (some err)
    rw [hout] at hstart
    simp only [List.mem_append, List.mem_singleton] at hstart
    rcases hmid with ⟨-, -, hmid⟩ | ⟨-, hmid⟩ <;> subst hmid <;> simp_all
  · exfalso
    have h2 := start_not_mem_closeStdin t2 hio2 cntr.ID (some err)
    have h3 := start_not_mem_closeStdin t3 hio3 cntr.ID (some err)
    have h4 := start_not_mem_goroutine t4 hio4 cntr.ID (some err)
    rw [hout] at hstart
    simp only [List.mem_append, List.mem_singleton] at hstart
    rcases hmid with ⟨-, -, hmid⟩ | ⟨-, hmid⟩ <;> subst hmid <;> simp_all

/-- C5, on the store of `sampleEnv`: the start of the created container `c5` fails. -/
theorem start_failure_witness :
    sampleEnv.containerStoreGet "c5" [] = .ok ⟨"c5", false⟩ ∧
    sampleEnv.statusState ⟨"c5", false⟩ [.storeGet "c5" (.ok ⟨"c5", false⟩)] =
      ContainerState_CONTAINER_CREATED ∧
    Event.startContainer "c5" (some (.base "failed to start containerd task")) ∈
      (attachContainer sampleEnv busy "c5" 10 11 12 true [⟨80, 24⟩]).log ∧
    (attachContainer sampleEnv busy "c5" 10 11 12 true [⟨80, 24⟩]).err =
      some (.base "failed to start containerd task") ∧
    (attachContainer sampleEnv busy "c5" 10 11 12 true [⟨80, 24⟩]).log.countP
      Event.isResizeCall = 0 :=
  ⟨by decide, by decide, by decide,
    (start_failure sampleEnv busy "c5" 10 11 12 true [⟨80, 24⟩] ⟨"c5", false⟩
      ContainerState_CONTAINER_CREATED (.base "failed to start containerd task")
      (by decide) (by decide) (by decide) (by decide)).1,
    (start_failure sampleEnv busy "c5" 10 11 12 true [⟨80, 24⟩] ⟨"c5", false⟩
      ContainerState_CONTAINER_CREATED (.base "failed to start containerd task")
      (by decide) (by decide) (by decide) (by decide)).2.2.2.2.2⟩

/-! ## Which errors a session returns -/

theorem goroutine_not_relayStart_mem (t : History) (ht : ∀ e ∈ t, e.fromGoroutine = true) :
    ∀ e ∈ t, e.isRelayStart = false :=
  fun e he => goroutine_not_relayStart e (ht e he)

theorem closeStdin_not_relayStart_mem (t : History) (ht : ∀ e ∈ t, e.fromCloseStdin = true) :
    ∀ e ∈ t, e.isRelayStart = false :=
  fun e he => goroutine_not_relayStart e (fromCloseStdin_fromGoroutine e (ht e he))

theorem closeStdin_not_resizeCall_mem (t : History) (ht : ∀ e ∈ t, e.fromCloseStdin = true) :
    ∀ e ∈ t, e.isResizeCall = false :=
  fun e he => closeStdin_not_resizeCall e (ht e he)

/-- Past the gate, a history with the start of the relay or with a `task.Resize` call belongs to
a call that returned nil. -/
theorem joined_returns_nil (env : Env) (sched : Schedule) (id : String) (stdin : Stream)
    (stdout stderr : Stream) (tty : Bool) (resize : List TerminalSize) (cntr : Container)
    (state : ContainerState)
    (hget : env.containerStoreGet id [] = .ok cntr)
    (hstate : env.statusState cntr [.storeGet id (.ok cntr)] = state)
    (hgate : state = ContainerState_CONTAINER_RUNNING ∨ state = ContainerState_CONTAINER_CREATED)
    (hjoin : ∃ e ∈ (attachContainer env sched id stdin stdout stderr tty resize).log,
      e.isRelayStart = true ∨ e.isResizeCall = true) :
    (attachContainer env sched id stdin stdout stderr tty resize).err = none := by
  obtain ⟨t1, hio1, -, hcase⟩ := attachContainer_shape env sched id stdin stdout stderr tty
    resize cntr state hget hstate hgate
  obtain ⟨e, hmem, he⟩ := hjoin
  have r1 := closeStdin_not_relayStart_mem t1 hio1
  have c1 := closeStdin_not_resizeCall_mem t1 hio1
  rcases hcase with ⟨-, err1, -, hout⟩ |
    ⟨mid, t2, hmid, hio2, -, ⟨err1, -, hout⟩ | ⟨task, t3, t4, -, hio3, -, hio4, -, -, -, hout⟩⟩
  · exfalso
    rw [hout] at hmem
    simp only [List.mem_append, List.mem_singleton, launched, List.mem_cons,
      List.mem_nil_iff, or_false] at hmem
    rcases hmem with ((h | h | h) | h) | h
    · subst h; simp [Event.isRelayStart, Event.isResizeCall] at he
    · subst h; simp [Event.isRelayStart, Event.isResizeCall] at he
    · subst h; simp [Event.isRelayStart, Event.isResizeCall] at he
    · rcases he with he | he
      · simp [r1 e h] at he
      · simp [c1 e h] at he
    · subst h; simp [Event.isRelayStart, Event.isResizeCall] at he
  · exfalso
    have r2 := closeStdin_not_relayStart_mem t2 hio2
    have c2 := closeStdin_not_resizeCall_mem t2 hio2
    rw [hout] at hmem
    simp only [List.mem_append, List.mem_singleton, launched, List.mem_cons,
      List.mem_nil_iff, or_false] at hmem
    rcases hmem with ((((h | h | h) | h) | h) | h) | h
    · subst h; simp [Event.isRelayStart, Event.isResizeCall] at he
    · subst h; simp [Event.isRelayStart, Event.isResizeCall] at he
    · subst h; simp [Event.isRelayStart, Event.isResizeCall] at he
    · rcases he with he | he
      · simp [r1 e h] at he
      · simp [c1 e h] at he
    · rcases hmid with ⟨-, -, hmid⟩ | ⟨-, hmid⟩
      · subst hmid
        simp only [List.mem_singleton] at h
        subst h; simp [Event.isRelayStart, Event.isResizeCall] at he
      · subst hmid
        simp at h
    · rcases he with he | he
      · simp [r2 e h] at he
      · simp [c2 e h] at he
    · subst h; simp [Event.isRelayStart, Event.isResizeCall] at he
  · rw [hout]

/-- C4, as amended: past lookup and the state gate, `attachContainer` returns nil (the outcome
of the IO-binding unit, which is always nil), or the error of the `StartContainer` call that a
created container needs, or the error of the `Container.Task` call of line 88 wrapped as
"failed to load task".  Once the relay is started or a `task.Resize` call is made, the return
value is nil: a resize failure is never returned. -/
theorem returned_errors (env : Env) (sched : Schedule) (id : String) (stdin : Stream)
    (stdout stderr : Stream) (tty : Bool) (resize : List TerminalSize) (cntr : Container)
    (state : ContainerState)
    (hget : env.containerStoreGet id [] = .ok cntr)
    (hstate : env.statusState cntr [.storeGet id (.ok cntr)] = state)
    (hgate : state = ContainerState_CONTAINER_RUNNING ∨ state = ContainerState_CONTAINER_CREATED) :
    ((attachContainer env sched id stdin stdout stderr tty resize).err =
        egWait [ioBindingOutcome] ∨
      (state = ContainerState_CONTAINER_CREATED ∧ ∃ err,
        Event.startContainer cntr.ID (some err) ∈
          (attachContainer env sched id stdin stdout stderr tty resize).log ∧
        (attachContainer env sched id stdin stdout stderr tty resize).err = some err) ∨
      (∃ err, Event.containerTask cntr.ID .resize (.error err) ∈
          (attachContainer env sched id stdin stdout stderr tty resize).log ∧
        (attachContainer env sched id stdin stdout stderr tty resize).err =
          some (.wrap err "failed to load task"))) ∧
    egWait [ioBindingOutcome] = none ∧
    ((∃ e ∈ (attachContainer env sched id stdin stdout stderr tty resize).log,
        e.isRelayStart = true ∨ e.isResizeCall = true) →
      (attachContainer env sched id stdin stdout stderr tty resize).err = none) := by
  refine ⟨?_, rfl, joined_returns_nil env sched id stdin stdout stderr tty resize cntr state
    hget hstate hgate⟩
  obtain ⟨t1, hio1, -, hcase⟩ := attachContainer_shape env sched id stdin stdout stderr tty
    resize cntr state hget hstate hgate
  rcases hcase with ⟨hcre, err1, -, hout⟩ |
    ⟨mid, t2, hmid, hio2, -, ⟨err1, -, hout⟩ | ⟨task, t3, t4, -, hio3, -, hio4, -, -, -, hout⟩⟩
  · exact Or.inr (Or.inl ⟨hcre, err1, by rw [hout]; simp, by rw [hout]⟩)
  · exact Or.inr (Or.inr ⟨err1, by rw [hout]; simp, by rw [hout]⟩)
  · exact Or.inl (by rw [hout]; rfl)

/-- C4, on the store of `sampleEnv`: the created container `c1` is attached and nil returned. -/
theorem returned_errors_witness :
    sampleEnv.containerStoreGet "c1" [] = .ok ⟨"c1", false⟩ ∧
    sampleEnv.statusState ⟨"c1", false⟩ [.storeGet "c1" (.ok ⟨"c1", false⟩)] =
      ContainerState_CONTAINER_CREATED ∧
    (∃ e ∈ (attachContainer sampleEnv busy "c1" 10 11 12 true
        [⟨80, 24⟩, ⟨100, 30⟩, ⟨100, 30⟩]).log, e.isRelayStart = true ∨ e.isResizeCall = true) ∧
    (attachContainer sampleEnv busy "c1" 10 11 12 true
      [⟨80, 24⟩, ⟨100, 30⟩, ⟨100, 30⟩]).log.countP Event.isFailedResize = 1 ∧
    (attachContainer sampleEnv busy "c1" 10 11 12 true
      [⟨80, 24⟩, ⟨100, 30⟩, ⟨100, 30⟩]).err = none :=
  ⟨by decide, by decide, ⟨Event.handleResizing "c1", by decide, by decide⟩, by decide,
    (returned_errors sampleEnv busy "c1" 10 11 12 true [⟨80, 24⟩, ⟨100, 30⟩, ⟨100, 30⟩]
      ⟨"c1", false⟩ ContainerState_CONTAINER_CREATED (by decide) (by decide) (by decide)).2.2
      ⟨Event.handleResizing "c1", by decide, by decide⟩⟩

/-- C4 as stated fails: the running container `c6` needs no start, its task cannot be loaded at
line 88, and `attachContainer` returns that error wrapped, which is neither the outcome of the
IO-binding unit nor the error of a `StartContainer` call. -/
theorem task_lookup_error_is_returned :
    sampleEnv.containerStoreGet "c6" [] = .ok ⟨"c6", false⟩ ∧
    sampleEnv.statusState ⟨"c6", false⟩ [.storeGet "c6" (.ok ⟨"c6", false⟩)] =
      ContainerState_CONTAINER_RUNNING ∧
    (attachContainer sampleEnv idle "c6" 10 11 12 true [⟨80, 24⟩]).log =
      [.storeGet "c6" (.ok ⟨"c6", false⟩), .statusState "c6" ContainerState_CONTAINER_RUNNING,
        .goAttach "c6" 10 11 12 true false,
        .containerTask "c6" .resize (.error (.base "no running task found"))] ∧
    (attachContainer sampleEnv idle "c6" 10 11 12 true [⟨80, 24⟩]).err =
      some (.wrap (.base "no running task found") "failed to load task") ∧
    (attachContainer sampleEnv idle "c6" 10 11 12 true [⟨80, 24⟩]).err ≠
      egWait [ioBindingOutcome] ∧
    (attachContainer sampleEnv idle "c6" 10 11 12 true [⟨80, 24⟩]).log.countP
      Event.isStart = 0 := by
  refine ⟨by decide, by decide, by decide, by decide, by decide, by decide⟩

/-! ## The session that reaches the join -/

/-- C10: when lookup finds the record, the state read is `CONTAINER_CREATED` or
`CONTAINER_RUNNING`, no `StartContainer` call fails and the `Container.Task` call of line 88
does not fail, `attachContainer` returns the outcome of joining the one IO-binding unit, which
is nil; that unit was launched once, with the stdin, stdout, stderr and tty of the caller and
`StdinOnce` of the record; the relay was started once; a created container was started once. -/
theorem joined_outcome (env : Env) (sched : Schedule) (id : String) (stdin : Stream)
    (stdout stderr : Stream) (tty : Bool) (resize : List TerminalSize) (cntr : Container)
    (state : ContainerState)
    (hget : env.containerStoreGet id [] = .ok cntr)
    (hstate : env.statusState cntr [.storeGet id (.ok cntr)] = state)
    (hgate : state = ContainerState_CONTAINER_RUNNING ∨ state = ContainerState_CONTAINER_CREATED)
    (hstart : (attachContainer env sched id stdin stdout stderr tty resize).log.countP
      Event.isFailedStart = 0)
    (htask : (attachContainer env sched id stdin stdout stderr tty resize).log.countP
      Event.isFailedResizeLookup = 0) :
    (attachContainer env sched id stdin stdout stderr tty resize).err =
      egWait [ioBindingOutcome] ∧
    (attachContainer env sched id stdin stdout stderr tty resize).err = none ∧
    (∃ rest : History, (attachContainer env sched id stdin stdout stderr tty resize).log =
      [.storeGet id (.ok cntr), .statusState cntr.ID state,
        .goAttach cntr.ID stdin stdout stderr tty cntr.StdinOnce] ++ rest ∧
      rest.countP Event.isGoAttach = 0) ∧
    (attachContainer env sched id stdin stdout stderr tty resize).log.countP
      Event.isGoAttach = 1 ∧
    (attachContainer env sched id stdin stdout stderr tty resize).log.countP
      Event.isRelayStart = 1 ∧
    (state = ContainerState_CONTAINER_CREATED →
      (attachContainer env sched id stdin stdout stderr tty resize).log.countP
        Event.isStart = 1) := by
  have zg : ∀ t : History, (∀ e ∈ t, e.fromCloseStdin = true) → t.countP Event.isGoAttach = 0 :=
    fun t ht => countP_goroutine_zero _ goroutine_not_goAttach t
      (fun e he => fromCloseStdin_fromGoroutine e (ht e he))
  have zs : ∀ t : History, (∀ e ∈ t, e.fromCloseStdin = true) → t.countP Event.isStart = 0 :=
    fun t ht => countP_goroutine_zero _ goroutine_not_start t
      (fun e he => fromCloseStdin_fromGoroutine e (ht e he))
  have zr : ∀ t : History, (∀ e ∈ t, e.fromCloseStdin = true) →
      t.countP Event.isRelayStart = 0 :=
    fun t ht => countP_goroutine_zero _ goroutine_not_relayStart t
      (fun e he => fromCloseStdin_fromGoroutine e (ht e he))
  obtain ⟨t1, hio1, -, hcase⟩ := attachContainer_shape env sched id stdin stdout stderr tty
    resize cntr state hget hstate hgate
  rcases hcase with ⟨-, err1, -, hout⟩ |
    ⟨mid, t2, hmid, hio2, -, ⟨err1, -, hout⟩ | ⟨task, t3, t4, -, hio3, -, hio4, -, -, -, hout⟩⟩
  · exfalso
    rw [hout] at hstart
    simp [List.countP_append, Event.isFailedStart] at hstart
  · exfalso
    rw [hout] at htask
    simp [List.countP_append, Event.isFailedResizeLookup] at htask
  · have g4 : t4.countP Event.isGoAttach = 0 :=
      countP_goroutine_zero _ goroutine_not_goAttach t4 hio4
    have s4 : t4.countP Event.isStart = 0 := countP_goroutine_zero _ goroutine_not_start t4 hio4
    have r4 : t4.countP Event.isRelayStart = 0 :=
      countP_goroutine_zero _ goroutine_not_relayStart t4 hio4
    have hLg : (launched id cntr state stdin stdout stderr tty).countP Event.isGoAttach = 1 := rfl
    have hLs : (launched id cntr state stdin stdout stderr tty).countP Event.isStart = 0 := rfl
    have hLr : (launched id cntr state stdin stdout stderr tty).countP Event.isRelayStart = 0 :=
      rfl
    have hmg : mid.countP Event.isGoAttach = 0 := by
      rcases hmid with ⟨-, -, hmid⟩ | ⟨-, hmid⟩ <;> subst hmid <;> rfl
    have hmr : mid.countP Event.isRelayStart = 0 := by
      rcases hmid with ⟨-, -, hmid⟩ | ⟨-, hmid⟩ <;> subst hmid <;> rfl
    rw [hout]
    refine ⟨rfl, rfl, ⟨t1 ++ mid ++ t2 ++ [.containerTask cntr.ID .resize (.ok task)] ++ t3 ++
      [.handleResizing cntr.ID] ++ t4, ?_, ?_⟩, ?_, ?_, ?_⟩
    · simp only [launched, List.append_assoc]
    · simp only [List.countP_append, zg t1 hio1, zg t2 hio2, zg t3 hio3, g4, hmg]
      rfl
    · simp only [List.countP_append, hLg, zg t1 hio1, zg t2 hio2, zg t3 hio3, g4, hmg]
      rfl
    · simp only [List.countP_append, hLr, zr t1 hio1, zr t2 hio2, zr t3 hio3, r4, hmr]
      rfl
    · intro hcre
      have hne : ¬ (ContainerState_CONTAINER_CREATED = ContainerState_CONTAINER_RUNNING) := by
        decide
      rcases hmid with ⟨-, -, hmid⟩ | ⟨hrun, -⟩
      · subst hmid
        simp only [List.countP_append, hLs, zs t1 hio1, zs t2 hio2, zs t3 hio3, s4]
        rfl
      · exact absurd (hcre.symm.trans hrun) hne

/-- C10, on the store of `sampleEnv`: container `c1` is created, `StdinOnce` is false, tty is
true; the call returns nil after one start call. -/
theorem joined_outcome_witness :
    sampleEnv.containerStoreGet "c1" [] = .ok ⟨"c1", false⟩ ∧
    sampleEnv.statusState ⟨"c1", false⟩ [.storeGet "c1" (.ok ⟨"c1", false⟩)] =
      ContainerState_CONTAINER_CREATED ∧
    (attachContainer sampleEnv busy "c1" 10 11 12 true [⟨80, 24⟩]).log.countP
      Event.isFailedStart = 0 ∧
    (attachContainer sampleEnv busy "c1" 10 11 12 true [⟨80, 24⟩]).log.countP
      Event.isFailedResizeLookup = 0 ∧
    (attachContainer sampleEnv busy "c1" 10 11 12 true [⟨80, 24⟩]).err = none ∧
    (attachContainer sampleEnv busy "c1" 10 11 12 true [⟨80, 24⟩]).log.countP
      Event.isStart = 1 :=
  ⟨by decide, by decide, by decide, by decide,
    (joined_outcome sampleEnv busy "c1" 10 11 12 true [⟨80, 24⟩] ⟨"c1", false⟩
      ContainerState_CONTAINER_CREATED (by decide) (by decide) (by decide) (by decide)
      (by decide)).2.1,
    (joined_outcome sampleEnv busy "c1" 10 11 12 true [⟨80, 24⟩] ⟨"c1", false⟩
      ContainerState_CONTAINER_CREATED (by decide) (by decide) (by decide) (by decide)
      (by decide)).2.2.2.2.2 (by decide)⟩

/-! ## The `CloseStdin` closure -/

/-- Whatever the lookup and the gate do, a history with the start of the relay or with a
`task.Resize` call belongs to a call that returned nil. -/
theorem attachContainer_nil_of_relay (env : Env) (sched : Schedule) (id : String)
    (stdin : Stream) (stdout stderr : Stream) (tty : Bool) (resize : List TerminalSize)
    (hjoin : ∃ e ∈ (attachContainer env sched id stdin stdout stderr tty resize).log,
      e.isRelayStart = true ∨ e.isResizeCall = true) :
    (attachContainer env sched id stdin stdout stderr tty resize).err = none := by
  cases hget : env.containerStoreGet id [] with
  | error err =>
    exfalso
    have hout : attachContainer env sched id stdin stdout stderr tty resize =
        ⟨some (.wrap err ("failed to find container " ++ env.quote id ++ " in store")),
          [.storeGet id (.error err)]⟩ := by
      simp only [attachContainer, hget]
    obtain ⟨e, hmem, he⟩ := hjoin
    rw [hout] at hmem
    simp only [List.mem_singleton] at hmem
    subst hmem
    simp [Event.isRelayStart, Event.isResizeCall] at he
  | ok cntr =>
    by_cases hgate : env.statusState cntr [.storeGet id (.ok cntr)] =
        ContainerState_CONTAINER_RUNNING ∨
      env.statusState cntr [.storeGet id (.ok cntr)] = ContainerState_CONTAINER_CREATED
    · exact joined_returns_nil env sched id stdin stdout stderr tty resize cntr _ hget rfl hgate
        hjoin
    · exfalso
      have hout := attachContainer_rejected env sched id stdin stdout stderr tty resize cntr _
        hget rfl hgate
      obtain ⟨e, hmem, he⟩ := hjoin
      rw [hout] at hmem
      simp only [List.mem_cons, List.mem_singleton, List.mem_nil_iff, or_false] at hmem
      rcases hmem with h | h <;> subst h <;> simp [Event.isRelayStart, Event.isResizeCall] at he

/-- The `Container.Task` calls of line 65 in a history are as many as the `CloseStdin` calls the
IO layer made before the return. -/
theorem attachContainer_closeStdin_count (env : Env) (sched : Schedule) (id : String)
    (stdin : Stream) (stdout stderr : Stream) (tty : Bool) (resize : List TerminalSize) :
    (attachContainer env sched id stdin stdout stderr tty resize).log.countP
        Event.isCloseStdinLookup ≤ sched.closeStdinCalls ∧
    ((∃ e ∈ (attachContainer env sched id stdin stdout stderr tty resize).log,
        e.isRelayStart = true) →
      (attachContainer env sched id stdin stdout stderr tty resize).log.countP
        Event.isCloseStdinLookup = sched.closeStdinCalls) := by
  cases hget : env.containerStoreGet id [] with
  | error err =>
    have hout : attachContainer env sched id stdin stdout stderr tty resize =
        ⟨some (.wrap err ("failed to find container " ++ env.quote id ++ " in store")),
          [.storeGet id (.error err)]⟩ := by
      simp only [attachContainer, hget]
    rw [hout]
    exact ⟨by simp [Event.isCloseStdinLookup], by simp [Event.isRelayStart]⟩
  | ok cntr =>
    by_cases hgate : env.statusState cntr [.storeGet id (.ok cntr)] =
        ContainerState_CONTAINER_RUNNING ∨
      env.statusState cntr [.storeGet id (.ok cntr)] = ContainerState_CONTAINER_CREATED
    · obtain ⟨t1, hio1, hc1, hcase⟩ := attachContainer_shape env sched id stdin stdout stderr tty
        resize cntr _ hget rfl hgate
      have hL : ∀ state, (launched id cntr state stdin stdout stderr tty).countP
          Event.isCloseStdinLookup = 0 := fun _ => rfl
      have r1 := closeStdin_not_relayStart_mem t1 hio1
      rcases hcase with ⟨-, err1, -, hout⟩ |
        ⟨mid, t2, hmid, hio2, hc2, ⟨err1, -, hout⟩ | ⟨task, t3, t4, -, hio3, hc3, hio4, hc4, -, -, hout⟩⟩
      · rw [hout]
        constructor
        · simp only [List.countP_append, hL, hc1, Schedule.closeStdinCalls]
          simp [Event.isCloseStdinLookup]
          omega
        · rintro ⟨e, hmem, he⟩
          exfalso
          simp only [List.mem_append, List.mem_singleton, launched, List.mem_cons,
            List.mem_nil_iff, or_false] at hmem
          rcases hmem with ((h | h | h) | h) | h
          · subst h; simp [Event.isRelayStart] at he
          · subst h; simp [Event.isRelayStart] at he
          · subst h; simp [Event.isRelayStart] at he
          · simp [r1 e h] at he
          · subst h; simp [Event.isRelayStart] at he
      · have r2 := closeStdin_not_relayStart_mem t2 hio2
        have hm : mid.countP Event.isCloseStdinLookup = 0 := by
          rcases hmid with ⟨-, -, hmid⟩ | ⟨-, hmid⟩ <;> subst hmid <;> rfl
        rw [hout]
        constructor
        · simp only [List.countP_append, hL, hc1, hc2, hm, Schedule.closeStdinCalls]
          simp [Event.isCloseStdinLookup]
          omega
        · rintro ⟨e, hmem, he⟩
          exfalso
          simp only [List.mem_append, List.mem_singleton, launched, List.mem_cons,
            List.mem_nil_iff, or_false] at hmem
          rcases hmem with ((((h | h | h) | h) | h) | h) | h
          · subst h; simp [Event.isRelayStart] at he
          · subst h; simp [Event.isRelayStart] at he
          · subst h; simp [Event.isRelayStart] at he
          · simp [r1 e h] at he
          · rcases hmid with ⟨-, -, hmid⟩ | ⟨-, hmid⟩
            · subst hmid
              simp only [List.mem_singleton] at h
              subst h; simp [Event.isRelayStart] at he
            · subst hmid
              simp at h
          · simp [r2 e h] at he
          · subst h; simp [Event.isRelayStart] at he
      · have hm : mid.countP Event.isCloseStdinLookup = 0 := by
          rcases hmid with ⟨-, -, hmid⟩ | ⟨-, hmid⟩ <;> subst hmid <;> rfl
        have hall : (attachContainer env sched id stdin stdout stderr tty resize).log.countP
            Event.isCloseStdinLookup = sched.closeStdinCalls := by
          rw [hout]
          simp only [List.countP_append, hL, hc1, hc2, hc3, hc4, hm, Schedule.closeStdinCalls]
          simp [Event.isCloseStdinLookup]
        exact ⟨Nat.le_of_eq hall, fun _ => hall⟩
    · have hout := attachContainer_rejected env sched id stdin stdout stderr tty resize cntr _
        hget rfl hgate
      rw [hout]
      exact ⟨by simp [Event.isCloseStdinLookup], by simp [Event.isRelayStart]⟩

/-- C7: each invocation of the `CloseStdin` closure makes one `Container.Task` call of its own,
at the time of the invocation: if that call fails with `err`, the closure returns "failed to
load task" wrapping `err` and the lookup is all it did (no `CloseIO` call); if it gives `task`,
the closure makes one `CloseIO` call on that `task` and returns its result.  In a session the
line-65 lookups are as many as the `CloseStdin` calls made by the IO layer, none comes from
building the descriptor. -/
theorem closeStdin_fresh (env : Env) (cntr : Container) (h : History) :
    (∀ err, env.containerTask cntr h = .error err →
      closeStdin env cntr h = (some (.wrap err "failed to load task"),
        h ++ [.containerTask cntr.ID .closeStdin (.error err)]) ∧
      (closeStdin env cntr h).2.countP Event.isCloseStdinCall =
        h.countP Event.isCloseStdinCall) ∧
    (∀ task, env.containerTask cntr h = .ok task →
      closeStdin env cntr h =
        (env.taskCloseStdin task (h ++ [.containerTask cntr.ID .closeStdin (.ok task)]),
          h ++ [.containerTask cntr.ID .closeStdin (.ok task),
            .closeStdinCall task
              (env.taskCloseStdin task (h ++ [.containerTask cntr.ID .closeStdin (.ok task)]))]) ∧
      (closeStdin env cntr h).2.countP Event.isCloseStdinCall =
        h.countP Event.isCloseStdinCall + 1) ∧
    (closeStdin env cntr h).2.countP Event.isTaskLookup = h.countP Event.isTaskLookup + 1 ∧
    (∀ (sched : Schedule) (id : String) (stdin stdout stderr : Stream) (tty : Bool)
        (resize : List TerminalSize),
      (attachContainer env sched id stdin stdout stderr tty resize).log.countP
          Event.isCloseStdinLookup ≤ sched.closeStdinCalls ∧
      ((∃ e ∈ (attachContainer env sched id stdin stdout stderr tty resize).log,
          e.isRelayStart = true) →
        (attachContainer env sched id stdin stdout stderr tty resize).log.countP
          Event.isCloseStdinLookup = sched.closeStdinCalls)) := by
  refine ⟨?_, ?_, ?_, fun sched id stdin stdout stderr tty resize =>
    attachContainer_closeStdin_count env sched id stdin stdout stderr tty resize⟩
  · intro err herr
    have hcl : closeStdin env cntr h = (some (.wrap err "failed to load task"),
        h ++ [.containerTask cntr.ID .closeStdin (.error err)]) := by
      simp only [closeStdin, herr]
    rw [hcl]
    exact ⟨rfl, by simp [Event.isCloseStdinCall]⟩
  · intro task htask
    have hcl : closeStdin env cntr h =
        (env.taskCloseStdin task (h ++ [.containerTask cntr.ID .closeStdin (.ok task)]),
          h ++ [.containerTask cntr.ID .closeStdin (.ok task),
            .closeStdinCall task
              (env.taskCloseStdin task
                (h ++ [.containerTask cntr.ID .closeStdin (.ok task)]))]) := by
      simp only [closeStdin, htask, List.append_assoc, List.singleton_append]
    rw [hcl]
    exact ⟨rfl, by simp [Event.isCloseStdinCall, List.countP_cons]⟩
  · cases htask : env.containerTask cntr h with
    | error err => simp [closeStdin, htask, Event.isTaskLookup]
    | ok task => simp [closeStdin, htask, Event.isTaskLookup, List.countP_cons]

/-- C7, on `sampleEnv`, whose task handle changes with time: the task of `c6` cannot be loaded
and the closure returns the wrapped error after the lookup alone; the closure of `c1` closes
the stdin of the task it has just looked up; in a session of `c1` the two `CloseStdin` calls of
the IO layer act on the tasks 10 and 16 while the relay holds the task 13. -/
theorem closeStdin_fresh_witness :
    (sampleEnv.containerTask ⟨"c6", false⟩ [] = .error (.base "no running task found") ∧
      closeStdin sampleEnv ⟨"c6", false⟩ [] =
        (some (.wrap (.base "no running task found") "failed to load task"),
          [.containerTask "c6" .closeStdin (.error (.base "no running task found"))])) ∧
    (sampleEnv.containerTask ⟨"c1", false⟩ [] = .ok 7 ∧
      closeStdin sampleEnv ⟨"c1", false⟩ [] =
        (none, [.containerTask "c1" .closeStdin (.ok 7), .closeStdinCall 7 none])) ∧
    ((∃ e ∈ (attachContainer sampleEnv busy "c1" 10 11 12 true [⟨80, 24⟩]).log,
        e.isRelayStart = true) ∧
      (attachContainer sampleEnv busy "c1" 10 11 12 true [⟨80, 24⟩]).log.countP
        Event.isCloseStdinLookup = 2 ∧
      (attachContainer sampleEnv busy "c1" 10 11 12 true [⟨80, 24⟩]).log.filter
        (fun e => e.isTaskLookup || e.isCloseStdinCall) =
        [.containerTask "c1" .closeStdin (.ok 10), .closeStdinCall 10 none,
          .containerTask "c1" .resize (.ok 13),
          .containerTask "c1" .closeStdin (.ok 16), .closeStdinCall 16 none]) :=
  ⟨⟨by decide,
      ((closeStdin_fresh sampleEnv ⟨"c6", false⟩ []).1 (.base "no running task found")
        (by decide)).1⟩,
    ⟨by decide, ((closeStdin_fresh sampleEnv ⟨"c1", false⟩ []).2.1 7 (by decide)).1⟩,
    ⟨⟨Event.handleResizing "c1", by decide, by decide⟩,
      ((closeStdin_fresh sampleEnv ⟨"c1", false⟩ []).2.2.2 busy "c1" 10 11 12 true
        [⟨80, 24⟩]).2 ⟨Event.handleResizing "c1", by decide, by decide⟩,
      by decide⟩⟩

/-- C6 as stated fails: container `c3` is running with `StdinOnce`; the IO layer calls
`CloseStdin` once the relay has started, the task cannot be loaded, the closure returns
"failed to load task" to the IO layer, no `CloseIO` call is made, and `attachContainer`
returns nil. -/
theorem closeStdin_error_not_surfaced :
    sampleEnv.containerStoreGet "c3" [] = .ok ⟨"c3", true⟩ ∧
    (attachContainer sampleEnv closeAfterRelay "c3" 10 11 12 false []).log =
      [.storeGet "c3" (.ok ⟨"c3", true⟩), .statusState "c3" ContainerState_CONTAINER_RUNNING,
        .goAttach "c3" 10 11 12 false true, .containerTask "c3" .resize (.ok 10),
        .handleResizing "c3",
        .containerTask "c3" .closeStdin (.error (.base "no running task found"))] ∧
    (closeStdin sampleEnv ⟨"c3", true⟩
      [.storeGet "c3" (.ok ⟨"c3", true⟩), .statusState "c3" ContainerState_CONTAINER_RUNNING,
        .goAttach "c3" 10 11 12 false true, .containerTask "c3" .resize (.ok 10),
        .handleResizing "c3"]).1 =
      some (.wrap (.base "no running task found") "failed to load task") ∧
    (attachContainer sampleEnv closeAfterRelay "c3" 10 11 12 false []).log.countP
      Event.isCloseStdinCall = 0 ∧
    (attachContainer sampleEnv closeAfterRelay "c3" 10 11 12 false []).err = none := by
  refine ⟨by decide, by decide, by decide, by decide, by decide⟩

/-- C6, as amended: when the task handle cannot be resolved, the `CloseStdin` closure returns
the error "failed to load task" wrapping the lookup error to the IO layer that called it and
makes no `CloseIO` call; `attachContainer` does not return that error: the IO-binding unit
returns nil whatever `CloseStdin` answered, and a session that has started the relay returns
nil. -/
theorem closeStdin_error_stays_with_caller (env : Env) (cntr : Container) (h : History)
    (err : Error) (hfail : env.containerTask cntr h = .error err) :
    (closeStdin env cntr h).1 = some (.wrap err "failed to load task") ∧
    (closeStdin env cntr h).2 = h ++ [.containerTask cntr.ID .closeStdin (.error err)] ∧
    (closeStdin env cntr h).2.countP Event.isCloseStdinCall = h.countP Event.isCloseStdinCall ∧
    egWait [ioBindingOutcome] = none ∧
    (∀ (sched : Schedule) (id : String) (stdin stdout stderr : Stream) (tty : Bool)
        (resize : List TerminalSize),
      (∃ e ∈ (attachContainer env sched id stdin stdout stderr tty resize).log,
        e.isRelayStart = true) →
      (attachContainer env sched id stdin stdout stderr tty resize).err = none) := by
  have hcl : closeStdin env cntr h = (some (.wrap err "failed to load task"),
      h ++ [.containerTask cntr.ID .closeStdin (.error err)]) := by
    simp only [closeStdin, hfail]
  rw [hcl]
  refine ⟨rfl, rfl, by simp [Event.isCloseStdinCall], rfl, ?_⟩
  intro sched id stdin stdout stderr tty resize hjoin
  obtain ⟨e, hmem, he⟩ := hjoin
  exact attachContainer_nil_of_relay env sched id stdin stdout stderr tty resize
    ⟨e, hmem, Or.inl he⟩

/-- C6 as amended, on `sampleEnv`: the session of `c3` in which the task is gone when the IO
layer closes stdin. -/
theorem closeStdin_error_stays_with_caller_witness :
    sampleEnv.containerTask ⟨"c3", true⟩ [.handleResizing "c3"] =
      .error (.base "no running task found") ∧
    (closeStdin sampleEnv ⟨"c3", true⟩ [.handleResizing "c3"]).1 =
      some (.wrap (.base "no running task found") "failed to load task") ∧
    (∃ e ∈ (attachContainer sampleEnv closeAfterRelay "c3" 10 11 12 false []).log,
      e.isRelayStart = true) ∧
    (attachContainer sampleEnv closeAfterRelay "c3" 10 11 12 false []).err = none :=
  ⟨by decide,
    (closeStdin_error_stays_with_caller sampleEnv ⟨"c3", true⟩ [.handleResizing "c3"]
      (.base "no running task found") (by decide)).1,
    ⟨Event.handleResizing "c3", by decide, by decide⟩,
    (closeStdin_error_stays_with_caller sampleEnv ⟨"c3", true⟩ [.handleResizing "c3"]
      (.base "no running task found") (by decide)).2.2.2.2 closeAfterRelay "c3" 10 11 12 false []
      ⟨Event.handleResizing "c3", by decide, by decide⟩⟩

/-! ## The resize callback -/

theorem uint32_of_uint16 (x : Nat) (hx : x < 2 ^ 16) : uint32 x = x := by
  unfold uint32
  exact Nat.mod_eq_of_lt (Nat.lt_trans hx (by norm_num))

theorem handleResizing_cons (size : TerminalSize) (sizes : List TerminalSize)
    (f : TerminalSize → M Unit) (h : History) :
    (handleResizing (size :: sizes) f h).2 = (handleResizing sizes f (f size h).2).2 := rfl

theorem handleResizing_log (env : Env) (id : String) (task : Task) (sizes : List TerminalSize)
    (h : History) :
    ∃ t : History, (handleResizing sizes (resizeFunc env id task) h).2 = h ++ t ∧
      resizeArgs t = sizes.map (fun size => (uint32 size.Width, uint32 size.Height)) ∧
      t.countP Event.isLogError = t.countP Event.isFailedResize := by
  induction sizes generalizing h with
  | nil => exact ⟨[], by simp [handleResizing], rfl, rfl⟩
  | cons size sizes ih =>
    obtain ⟨t1, h1, -, ha1, -, hl1⟩ := resizeFunc_log env id task size h
    obtain ⟨t2, h2, ha2, hl2⟩ := ih (h ++ t1)
    refine ⟨t1 ++ t2, ?_, ?_, ?_⟩
    · rw [handleResizing_cons, h1, h2, List.append_assoc]
    · rw [resizeArgs_append, ha1, ha2]
      rfl
    · rw [List.countP_append, List.countP_append, hl1, hl2]

theorem map_uint32_of_uint16 (sizes : List TerminalSize)
    (hs : ∀ size ∈ sizes, size.Width < 2 ^ 16 ∧ size.Height < 2 ^ 16) :
    sizes.map (fun size => (uint32 size.Width, uint32 size.Height)) =
      sizes.map (fun size => (size.Width, size.Height)) := by
  apply List.map_congr_left
  intro size hmem
  rw [uint32_of_uint16 _ (hs size hmem).1, uint32_of_uint16 _ (hs size hmem).2]

/-- A session that returned nil made its `task.Resize` calls for the events the relay received,
in the order of the channel, and wrote one log line for each failed call. -/
theorem nil_session_resize (env : Env) (sched : Schedule) (id : String) (stdin : Stream)
    (stdout stderr : Stream) (tty : Bool) (resize : List TerminalSize)
    (hnil : (attachContainer env sched id stdin stdout stderr tty resize).err = none) :
    resizeArgs (attachContainer env sched id stdin stdout stderr tty resize).log =
      (resize.take (sched.untilJoin.count .relay)).map
        (fun size => (uint32 size.Width, uint32 size.Height)) ∧
    (attachContainer env sched id stdin stdout stderr tty resize).log.countP Event.isLogError =
      (attachContainer env sched id stdin stdout stderr tty resize).log.countP
        Event.isFailedResize := by
  cases hget : env.containerStoreGet id [] with
  | error err =>
    exfalso
    have hout : attachContainer env sched id stdin stdout stderr tty resize =
        ⟨some (.wrap err ("failed to find container " ++ env.quote id ++ " in store")),
          [.storeGet id (.error err)]⟩ := by
      simp only [attachContainer, hget]
    rw [hout] at hnil
    cases hnil
  | ok cntr =>
    by_cases hgate : env.statusState cntr [.storeGet id (.ok cntr)] =
        ContainerState_CONTAINER_RUNNING ∨
      env.statusState cntr [.storeGet id (.ok cntr)] = ContainerState_CONTAINER_CREATED
    · obtain ⟨t1, hio1, -, hcase⟩ := attachContainer_shape env sched id stdin stdout stderr tty
        resize cntr _ hget rfl hgate
      rcases hcase with ⟨-, err1, -, hout⟩ |
        ⟨mid, t2, hmid, hio2, -, ⟨err1, -, hout⟩ | ⟨task, t3, t4, -, hio3, -, hio4, -, ha4, hl4, hout⟩⟩
      · rw [hout] at hnil
        cases hnil
      · rw [hout] at hnil
        cases hnil
      · have hLa : ∀ state, resizeArgs (launched id cntr state stdin stdout stderr tty) = [] :=
          fun _ => rfl
        have hLl : ∀ state, (launched id cntr state stdin stdout stderr tty).countP
            Event.isLogError = 0 := fun _ => rfl
        have hLf : ∀ state, (launched id cntr state stdin stdout stderr tty).countP
            Event.isFailedResize = 0 := fun _ => rfl
        have hma : resizeArgs mid = [] := by
          rcases hmid with ⟨-, -, hmid⟩ | ⟨-, hmid⟩ <;> subst hmid <;> rfl
        have hml : mid.countP Event.isLogError = 0 := by
          rcases hmid with ⟨-, -, hmid⟩ | ⟨-, hmid⟩ <;> subst hmid <;> rfl
        have hmf : mid.countP Event.isFailedResize = 0 := by
          rcases hmid with ⟨-, -, hmid⟩ | ⟨-, hmid⟩ <;> subst hmid <;> rfl
        rw [hout]
        constructor
        · simp only [resizeArgs_append, hLa, hma, resizeArgs_closeStdin t1 hio1,
            resizeArgs_closeStdin t2 hio2, resizeArgs_closeStdin t3 hio3, ha4]
          simp [resizeArgs]
        · simp only [List.countP_append, hLl, hLf, hml, hmf, (closeStdin_no_logs t1 hio1).1,
            (closeStdin_no_logs t1 hio1).2, (closeStdin_no_logs t2 hio2).1,
            (closeStdin_no_logs t2 hio2).2, (closeStdin_no_logs t3 hio3).1,
            (closeStdin_no_logs t3 hio3).2, hl4]
          simp [Event.isLogError, Event.isFailedResize]
    · exfalso
      have hout := attachContainer_rejected env sched id stdin stdout stderr tty resize cntr _
        hget rfl hgate
      rw [hout] at hnil
      cases hnil

/-- C8: the resize callback, given an event whose `Width` and `Height` are `uint16` values,
makes one `task.Resize` call with `(Width, Height)` unchanged and in that order; if the call
fails it writes one log line and nothing else; it hands back no error.  The relay run over a
sequence of events makes one call per event, in order, whichever calls fail, and writes as many
log lines as calls failed.  A session whose history holds a `task.Resize` call returns nil, and
a session that returns nil has made its calls for the first events of the channel in order. -/
theorem resize_callback (env : Env) (id : String) (task : Task) (size : TerminalSize)
    (h : History) (hw : size.Width < 2 ^ 16) (hh : size.Height < 2 ^ 16) :
    (resizeFunc env id task size h).2 =
      h ++ [.resizeCall task size.Width size.Height
        (env.taskResize task size.Width size.Height h)] ++
        (match env.taskResize task size.Width size.Height h with
          | some err => [.logError err ("Failed to resize task " ++ env.quote id ++ " console")]
          | none => []) ∧
    (∀ (sizes : List TerminalSize) (h0 : History),
      (∀ s ∈ sizes, s.Width < 2 ^ 16 ∧ s.Height < 2 ^ 16) →
      resizeArgs (handleResizing sizes (resizeFunc env id task) h0).2 =
        resizeArgs h0 ++ sizes.map (fun s => (s.Width, s.Height)) ∧
      (handleResizing sizes (resizeFunc env id task) h0).2.countP Event.isLogError +
          h0.countP Event.isFailedResize =
        h0.countP Event.isLogError +
          (handleResizing sizes (resizeFunc env id task) h0).2.countP Event.isFailedResize) ∧
    (∀ (sched : Schedule) (id0 : String) (stdin stdout stderr : Stream) (tty : Bool)
        (resize : List TerminalSize),
      (∀ s ∈ resize, s.Width < 2 ^ 16 ∧ s.Height < 2 ^ 16) →
      ((∃ e ∈ (attachContainer env sched id0 stdin stdout stderr tty resize).log,
          e.isResizeCall = true) →
        (attachContainer env sched id0 stdin stdout stderr tty resize).err = none) ∧
      ((attachContainer env sched id0 stdin stdout stderr tty resize).err = none →
        resizeArgs (attachContainer env sched id0 stdin stdout stderr tty resize).log =
          (resize.take (sched.untilJoin.count .relay)).map (fun s => (s.Width, s.Height)) ∧
        (attachContainer env sched id0 stdin stdout stderr tty resize).log.countP
            Event.isLogError =
          (attachContainer env sched id0 stdin stdout stderr tty resize).log.countP
            Event.isFailedResize)) := by
  refine ⟨?_, ?_, ?_⟩
  · simp only [resizeFunc, uint32_of_uint16 _ hw, uint32_of_uint16 _ hh]
    cases env.taskResize task size.Width size.Height h <;> simp
  · intro sizes h0 hs
    obtain ⟨t, ht, ha, hl⟩ := handleResizing_log env id task sizes h0
    rw [ht, resizeArgs_append, ha, map_uint32_of_uint16 sizes hs, List.countP_append,
      List.countP_append, hl]
    exact ⟨rfl, by omega⟩
  · intro sched id0 stdin stdout stderr tty resize hs
    constructor
    · rintro ⟨e, hmem, he⟩
      exact attachContainer_nil_of_relay env sched id0 stdin stdout stderr tty resize
        ⟨e, hmem, Or.inr he⟩
    · intro hnil
      obtain ⟨ha, hl⟩ := nil_session_resize env sched id0 stdin stdout stderr tty resize hnil
      refine ⟨?_, hl⟩
      rw [ha]
      exact map_uint32_of_uint16 _ (fun s hmem => hs s (List.mem_of_mem_take hmem))

/-- C8, on `sampleEnv`, where the second `task.Resize` call fails: the events `80x24`,
`100x30`, `100x30` give three calls in order and one log line, and the session returns nil. -/
theorem resize_callback_witness :
    (80 : Nat) < 2 ^ 16 ∧ (24 : Nat) < 2 ^ 16 ∧
    (resizeFunc sampleEnv "c1" 13 ⟨80, 24⟩ []).2 = [.resizeCall 13 80 24 none] ∧
    resizeArgs (handleResizing [⟨80, 24⟩, ⟨100, 30⟩, ⟨100, 30⟩]
      (resizeFunc sampleEnv "c1" 13) []).2 = [(80, 24), (100, 30), (100, 30)] ∧
    (handleResizing [⟨80, 24⟩, ⟨100, 30⟩, ⟨100, 30⟩]
      (resizeFunc sampleEnv "c1" 13) []).2.countP Event.isLogError = 1 ∧
    (attachContainer sampleEnv busy "c1" 10 11 12 true
      [⟨80, 24⟩, ⟨100, 30⟩, ⟨100, 30⟩]).err = none ∧
    resizeArgs (attachContainer sampleEnv busy "c1" 10 11 12 true
      [⟨80, 24⟩, ⟨100, 30⟩, ⟨100, 30⟩]).log = [(80, 24), (100, 30), (100, 30)] :=
  ⟨by decide, by decide,
    (resize_callback sampleEnv "c1" 13 ⟨80, 24⟩ [] (by decide) (by decide)).1,
    ((resize_callback sampleEnv "c1" 13 ⟨80, 24⟩ [] (by decide) (by decide)).2.1
      [⟨80, 24⟩, ⟨100, 30⟩, ⟨100, 30⟩] [] (by decide)).1,
    by decide,
    ((resize_callback sampleEnv "c1" 13 ⟨80, 24⟩ [] (by decide) (by decide)).2.2 busy "c1"
      10 11 12 true [⟨80, 24⟩, ⟨100, 30⟩, ⟨100, 30⟩] (by decide)).1
      ⟨Event.resizeCall 13 80 24 none, by decide, by decide⟩,
    (((resize_callback sampleEnv "c1" 13 ⟨80, 24⟩ [] (by decide) (by decide)).2.2 busy "c1"
      10 11 12 true [⟨80, 24⟩, ⟨100, 30⟩, ⟨100, 30⟩] (by decide)).2 (by decide)).1⟩

end K3c
